import Mathlib

/-!
Verification of the rapid-image library core (single-header C++ image library).

This file is a shallow embedding of the parts of `rapid-image.h` /
`rapid-image.cpp` that the verified properties talk about:

* the static pixel-layout table `PixelFormat::LAYOUTS` and the 32-bit
  `PixelFormat` descriptor with its bit-packed fields,
* the 128-bit `OnePixel` scratch value with its `segment`/`set` bit-range
  accessors,
* `PlaneDesc` (geometry and spacing of one image plane) with
  `make`/`setSpacing`/`valid`,
* `ImageDesc` (plane table of an arrayed/cubed/mipmapped image) with
  `reset`/`valid`/`index`,
* the RIL container codec (`saveToRIL` / `ImageDesc::loadFromRIL`),
* the face-count determination of the DDS reader (`ImageDesc::loadFromDDS`).

Machine integers are modelled as `Nat` with an explicit `% 2 ^ 32`
(resp. `% 2 ^ 64`) exactly where the C++ unsigned arithmetic can wrap.
Fallible code (RII_THROW, stream failures, early error returns) is modelled
with `Option`.  Floating-point conversions (`toFloat` / `fromFloat`) are not
given numeric semantics; where a property depends only on *which* channel is
decoded or encoded, the conversion is kept symbolic (a parameter or a
symbolic result constructor).
-/

namespace RapidImage

/-! ## PixelFormat: layout table

`PixelFormat::ChannelDesc` and `PixelFormat::LayoutDesc` from the header.
`channels` always has exactly 4 entries, as in the C++ fixed-size array. -/

/-- One channel of a pixel layout: bit shift and bit count
(`PixelFormat::ChannelDesc`). -/
structure ChannelDesc where
  shift : Nat
  bits : Nat
deriving DecidableEq, Repr

/-- One pixel layout: block extent, block bytes, channel count and the four
channel descriptors (`PixelFormat::LayoutDesc`). -/
structure LayoutDesc where
  blockWidth : Nat
  blockHeight : Nat
  blockBytes : Nat
  numChannels : Nat
  channels : List ChannelDesc
deriving DecidableEq, Repr

/-- The static layout table `PixelFormat::LAYOUTS`, indexed by the `Layout`
enum value (`LAYOUT_UNKNOWN = 0` … `LAYOUT_ASTC_12x12 = 52`).  Transcribed
row for row from the header. -/
def LAYOUTS : List LayoutDesc := [
  ⟨0 , 0 , 0  , 0 , [⟨0, 0 ⟩, ⟨0 , 0 ⟩, ⟨0 , 0 ⟩, ⟨0 , 0 ⟩]⟩, -- LAYOUT_UNKNOWN = 0
  ⟨8 , 1 , 1  , 1 , [⟨0, 1 ⟩, ⟨0 , 0 ⟩, ⟨0 , 0 ⟩, ⟨0 , 0 ⟩]⟩, -- LAYOUT_1 = 1
  ⟨1 , 1 , 1  , 4 , [⟨0, 2 ⟩, ⟨2 , 2 ⟩, ⟨4 , 2 ⟩, ⟨6 , 2 ⟩]⟩, -- LAYOUT_2_2_2_2 = 2
  ⟨1 , 1 , 1  , 3 , [⟨0, 3 ⟩, ⟨3 , 3 ⟩, ⟨8 , 2 ⟩, ⟨0 , 0 ⟩]⟩, -- LAYOUT_3_3_2 = 3
  ⟨1 , 1 , 1  , 2 , [⟨0, 4 ⟩, ⟨4 , 4 ⟩, ⟨0 , 0 ⟩, ⟨0 , 0 ⟩]⟩, -- LAYOUT_4_4 = 4
  ⟨1 , 1 , 2  , 4 , [⟨0, 4 ⟩, ⟨4 , 4 ⟩, ⟨8 , 4 ⟩, ⟨12, 4 ⟩]⟩, -- LAYOUT_4_4_4_4 = 5
  ⟨1 , 1 , 2  , 4 , [⟨0, 5 ⟩, ⟨10, 5 ⟩, ⟨15, 5 ⟩, ⟨15, 1 ⟩]⟩, -- LAYOUT_5_5_5_1 = 6
  ⟨1 , 1 , 2  , 3 , [⟨0, 5 ⟩, ⟨5 , 6 ⟩, ⟨11, 5 ⟩, ⟨0 , 0 ⟩]⟩, -- LAYOUT_5_6_5 = 7
  ⟨1 , 1 , 1  , 1 , [⟨0, 8 ⟩, ⟨0 , 0 ⟩, ⟨0 , 0 ⟩, ⟨0 , 0 ⟩]⟩, -- LAYOUT_8 = 8
  ⟨1 , 1 , 2  , 2 , [⟨0, 8 ⟩, ⟨8 , 8 ⟩, ⟨0 , 0 ⟩, ⟨0 , 0 ⟩]⟩, -- LAYOUT_8_8 = 9
  ⟨1 , 1 , 3  , 3 , [⟨0, 8 ⟩, ⟨8 , 8 ⟩, ⟨16, 8 ⟩, ⟨0 , 0 ⟩]⟩, -- LAYOUT_8_8_8 = 10
  ⟨1 , 1 , 4  , 4 , [⟨0, 8 ⟩, ⟨8 , 8 ⟩, ⟨16, 8 ⟩, ⟨24, 8 ⟩]⟩, -- LAYOUT_8_8_8_8 = 11
  ⟨1 , 1 , 4  , 3 , [⟨0, 10⟩, ⟨10, 11⟩, ⟨21, 11⟩, ⟨0 , 0 ⟩]⟩, -- LAYOUT_10_11_11 = 12
  ⟨1 , 1 , 4  , 3 , [⟨0, 11⟩, ⟨11, 11⟩, ⟨22, 10⟩, ⟨0 , 0 ⟩]⟩, -- LAYOUT_11_11_10 = 13
  ⟨1 , 1 , 4  , 4 , [⟨0, 10⟩, ⟨10, 10⟩, ⟨20, 10⟩, ⟨30, 2 ⟩]⟩, -- LAYOUT_10_10_10_2 = 14
  ⟨1 , 1 , 2  , 1 , [⟨0, 16⟩, ⟨0 , 0 ⟩, ⟨0 , 0 ⟩, ⟨0 , 0 ⟩]⟩, -- LAYOUT_16 = 15
  ⟨1 , 1 , 4  , 2 , [⟨0, 16⟩, ⟨16, 16⟩, ⟨0 , 0 ⟩, ⟨0 , 0 ⟩]⟩, -- LAYOUT_16_16 = 16
  ⟨1 , 1 , 4  , 3 , [⟨0, 16⟩, ⟨16, 16⟩, ⟨32, 1 ⟩, ⟨0 , 0 ⟩]⟩, -- LAYOUT_16_16_16 = 17
  ⟨1 , 1 , 8  , 4 , [⟨0, 16⟩, ⟨16, 16⟩, ⟨32, 16⟩, ⟨48, 1 ⟩]⟩, -- LAYOUT_16_16_16_16 = 18
  ⟨1 , 1 , 4  , 1 , [⟨0, 32⟩, ⟨0 , 0 ⟩, ⟨0 , 0 ⟩, ⟨0 , 0 ⟩]⟩, -- LAYOUT_32 = 19
  ⟨1 , 1 , 8  , 2 , [⟨0, 32⟩, ⟨32, 32⟩, ⟨0 , 0 ⟩, ⟨0 , 0 ⟩]⟩, -- LAYOUT_32_32 = 20
  ⟨1 , 1 , 12 , 3 , [⟨0, 32⟩, ⟨32, 32⟩, ⟨64, 32⟩, ⟨0 , 0 ⟩]⟩, -- LAYOUT_32_32_32 = 21
  ⟨1 , 1 , 16 , 4 , [⟨0, 32⟩, ⟨32, 32⟩, ⟨64, 32⟩, ⟨96, 32⟩]⟩, -- LAYOUT_32_32_32_32 = 22
  ⟨1 , 1 , 3  , 1 , [⟨0, 24⟩, ⟨0 , 0 ⟩, ⟨0 , 0 ⟩, ⟨0 , 0 ⟩]⟩, -- LAYOUT_24 = 23
  ⟨1 , 1 , 4  , 2 , [⟨0, 8 ⟩, ⟨8 , 24⟩, ⟨0 , 0 ⟩, ⟨0 , 0 ⟩]⟩, -- LAYOUT_8_24 = 24
  ⟨1 , 1 , 4  , 2 , [⟨0, 24⟩, ⟨24, 8 ⟩, ⟨0 , 0 ⟩, ⟨0 , 0 ⟩]⟩, -- LAYOUT_24_8 = 25
  ⟨1 , 1 , 4  , 4 , [⟨0, 4 ⟩, ⟨4 , 4 ⟩, ⟨8 , 24⟩, ⟨0 , 0 ⟩]⟩, -- LAYOUT_4_4_24 = 26
  ⟨1 , 1 , 8  , 3 , [⟨0, 32⟩, ⟨32, 8 ⟩, ⟨40, 24⟩, ⟨0 , 0 ⟩]⟩, -- LAYOUT_32_8_24 = 27
  ⟨2 , 1 , 4  , 4 , [⟨0, 0 ⟩, ⟨0 , 0 ⟩, ⟨0 , 0 ⟩, ⟨0 , 0 ⟩]⟩, -- LAYOUT_GRGB = 28
  ⟨2 , 1 , 4  , 4 , [⟨0, 0 ⟩, ⟨0 , 0 ⟩, ⟨0 , 0 ⟩, ⟨0 , 0 ⟩]⟩, -- LAYOUT_RGBG = 29
  ⟨4 , 4 , 8  , 3 , [⟨0, 0 ⟩, ⟨0 , 0 ⟩, ⟨0 , 0 ⟩, ⟨0 , 0 ⟩]⟩, -- LAYOUT_BC1 = 30
  ⟨4 , 4 , 16 , 4 , [⟨0, 0 ⟩, ⟨0 , 0 ⟩, ⟨0 , 0 ⟩, ⟨0 , 0 ⟩]⟩, -- LAYOUT_BC2 = 31
  ⟨4 , 4 , 16 , 4 , [⟨0, 0 ⟩, ⟨0 , 0 ⟩, ⟨0 , 0 ⟩, ⟨0 , 0 ⟩]⟩, -- LAYOUT_BC3 = 32
  ⟨4 , 4 , 8  , 1 , [⟨0, 0 ⟩, ⟨0 , 0 ⟩, ⟨0 , 0 ⟩, ⟨0 , 0 ⟩]⟩, -- LAYOUT_BC4 = 33
  ⟨4 , 4 , 16 , 2 , [⟨0, 0 ⟩, ⟨0 , 0 ⟩, ⟨0 , 0 ⟩, ⟨0 , 0 ⟩]⟩, -- LAYOUT_BC5 = 34
  ⟨4 , 4 , 16 , 3 , [⟨0, 0 ⟩, ⟨0 , 0 ⟩, ⟨0 , 0 ⟩, ⟨0 , 0 ⟩]⟩, -- LAYOUT_BC6H = 35
  ⟨4 , 4 , 16 , 4 , [⟨0, 0 ⟩, ⟨0 , 0 ⟩, ⟨0 , 0 ⟩, ⟨0 , 0 ⟩]⟩, -- LAYOUT_BC7 = 36
  ⟨4 , 4 , 8  , 3 , [⟨0, 0 ⟩, ⟨0 , 0 ⟩, ⟨0 , 0 ⟩, ⟨0 , 0 ⟩]⟩, -- LAYOUT_ETC2 = 37
  ⟨4 , 4 , 16 , 4 , [⟨0, 0 ⟩, ⟨0 , 0 ⟩, ⟨0 , 0 ⟩, ⟨0 , 0 ⟩]⟩, -- LAYOUT_ETC2_EAC = 38
  ⟨4 , 4 , 16 , 4 , [⟨0, 0 ⟩, ⟨0 , 0 ⟩, ⟨0 , 0 ⟩, ⟨0 , 0 ⟩]⟩, -- LAYOUT_ASTC_4x4 = 39
  ⟨5 , 4 , 16 , 4 , [⟨0, 0 ⟩, ⟨0 , 0 ⟩, ⟨0 , 0 ⟩, ⟨0 , 0 ⟩]⟩, -- LAYOUT_ASTC_5x4 = 40
  ⟨5 , 5 , 16 , 4 , [⟨0, 0 ⟩, ⟨0 , 0 ⟩, ⟨0 , 0 ⟩, ⟨0 , 0 ⟩]⟩, -- LAYOUT_ASTC_5x5 = 41
  ⟨6 , 5 , 16 , 4 , [⟨0, 0 ⟩, ⟨0 , 0 ⟩, ⟨0 , 0 ⟩, ⟨0 , 0 ⟩]⟩, -- LAYOUT_ASTC_6x5 = 42
  ⟨6 , 6 , 16 , 4 , [⟨0, 0 ⟩, ⟨0 , 0 ⟩, ⟨0 , 0 ⟩, ⟨0 , 0 ⟩]⟩, -- LAYOUT_ASTC_6x6 = 43
  ⟨8 , 5 , 16 , 4 , [⟨0, 0 ⟩, ⟨0 , 0 ⟩, ⟨0 , 0 ⟩, ⟨0 , 0 ⟩]⟩, -- LAYOUT_ASTC_8x5 = 44
  ⟨8 , 6 , 16 , 4 , [⟨0, 0 ⟩, ⟨0 , 0 ⟩, ⟨0 , 0 ⟩, ⟨0 , 0 ⟩]⟩, -- LAYOUT_ASTC_8x6 = 45
  ⟨8 , 8 , 16 , 4 , [⟨0, 0 ⟩, ⟨0 , 0 ⟩, ⟨0 , 0 ⟩, ⟨0 , 0 ⟩]⟩, -- LAYOUT_ASTC_8x8 = 46
  ⟨10, 5 , 16 , 4 , [⟨0, 0 ⟩, ⟨0 , 0 ⟩, ⟨0 , 0 ⟩, ⟨0 , 0 ⟩]⟩, -- LAYOUT_ASTC_10x5 = 47
  ⟨10, 6 , 16 , 4 , [⟨0, 0 ⟩, ⟨0 , 0 ⟩, ⟨0 , 0 ⟩, ⟨0 , 0 ⟩]⟩, -- LAYOUT_ASTC_10x6 = 48
  ⟨10, 8 , 16 , 4 , [⟨0, 0 ⟩, ⟨0 , 0 ⟩, ⟨0 , 0 ⟩, ⟨0 , 0 ⟩]⟩, -- LAYOUT_ASTC_10x8 = 49
  ⟨10, 10, 16 , 4 , [⟨0, 0 ⟩, ⟨0 , 0 ⟩, ⟨0 , 0 ⟩, ⟨0 , 0 ⟩]⟩, -- LAYOUT_ASTC_10x10 = 50
  ⟨12, 10, 16 , 4 , [⟨0, 0 ⟩, ⟨0 , 0 ⟩, ⟨0 , 0 ⟩, ⟨0 , 0 ⟩]⟩, -- LAYOUT_ASTC_12x10 = 51
  ⟨12, 12, 16 , 4 , [⟨0, 0 ⟩, ⟨0 , 0 ⟩, ⟨0 , 0 ⟩, ⟨0 , 0 ⟩]⟩] -- LAYOUT_ASTC_12x12 = 52

/-- `PixelFormat::NUM_COLOR_LAYOUTS` (value of the final enum entry). -/
def NUM_COLOR_LAYOUTS : Nat := 53

/-- Sign enum values (`PixelFormat::Sign`). -/
def SIGN_UNORM : Nat := 0
def SIGN_SNORM : Nat := 1
def SIGN_BNORM : Nat := 2
def SIGN_GNORM : Nat := 3
def SIGN_UINT : Nat := 4
def SIGN_SINT : Nat := 5
def SIGN_BINT : Nat := 6
def SIGN_GINT : Nat := 7
def SIGN_FLOAT : Nat := 8

/-- Swizzle enum values (`PixelFormat::Swizzle`). -/
def SWIZZLE_X : Nat := 0
def SWIZZLE_Y : Nat := 1
def SWIZZLE_Z : Nat := 2
def SWIZZLE_W : Nat := 3
def SWIZZLE_0 : Nat := 4
def SWIZZLE_1 : Nat := 5

/-- Four packed swizzles (`PixelFormat::Swizzle4`), 3 bits per slot. -/
def SWIZZLE_XYZW : Nat := (0 <<< 0) ||| (1 <<< 3) ||| (2 <<< 6) ||| (3 <<< 9)
def SWIZZLE_XYZ1 : Nat := (0 <<< 0) ||| (1 <<< 3) ||| (2 <<< 6) ||| (5 <<< 9)
def SWIZZLE_XY01 : Nat := (0 <<< 0) ||| (1 <<< 3) ||| (4 <<< 6) ||| (5 <<< 9)
def SWIZZLE_X001 : Nat := (0 <<< 0) ||| (4 <<< 3) ||| (4 <<< 6) ||| (5 <<< 9)

/-! ## PixelFormat: the bit-packed descriptor

The C++ `PixelFormat` is a union of nine bit fields and the 32-bit value
`u32`.  We model the fields directly and define `u32` by the little-endian
field packing (`layout` in bits 0–6, `reserved0` bit 7, `sign0` bits 8–11,
`sign12` bits 12–15, `sign3` bits 16–19, `swizzle0..3` in bits 20–22,
23–25, 26–28, 29–31). -/

structure PixelFormat where
  layout : Nat
  reserved0 : Nat
  sign0 : Nat
  sign12 : Nat
  sign3 : Nat
  swizzle0 : Nat
  swizzle1 : Nat
  swizzle2 : Nat
  swizzle3 : Nat
deriving DecidableEq, Repr

namespace PixelFormat

/-- The 32-bit encoding of the descriptor (the `u32` union member). -/
def u32 (f : PixelFormat) : Nat :=
  f.layout + f.reserved0 * 2 ^ 7 + f.sign0 * 2 ^ 8 + f.sign12 * 2 ^ 12 +
    f.sign3 * 2 ^ 16 + f.swizzle0 * 2 ^ 20 + f.swizzle1 * 2 ^ 23 +
    f.swizzle2 * 2 ^ 26 + f.swizzle3 * 2 ^ 29

/-- Recover the bit fields from a 32-bit encoding (reading the union through
the bit-field view). -/
def fromU32 (u : Nat) : PixelFormat :=
  ⟨u % 2 ^ 7, u / 2 ^ 7 % 2, u / 2 ^ 8 % 2 ^ 4, u / 2 ^ 12 % 2 ^ 4,
    u / 2 ^ 16 % 2 ^ 4, u / 2 ^ 20 % 2 ^ 3, u / 2 ^ 23 % 2 ^ 3,
    u / 2 ^ 26 % 2 ^ 3, u / 2 ^ 29 % 2 ^ 3⟩

/-- `PixelFormat::make(Layout, Sign, Sign, Sign, Swizzle ×4)`: field masking
only (`& 0x7f`, `& 0xf`, `& 0x7`), no validation. -/
def make (l si0 si12 si3 sw0 sw1 sw2 sw3 : Nat) : PixelFormat :=
  ⟨l &&& 0x7f, 0, si0 &&& 0xf, si12 &&& 0xf, si3 &&& 0xf,
    sw0 &&& 0x7, sw1 &&& 0x7, sw2 &&& 0x7, sw3 &&& 0x7⟩

/-- `PixelFormat::make(Layout, Sign, Sign, Sign, Swizzle4)`.  Note the
source extracts each slot with `& 3` (two bits), so the constant swizzles
`SWIZZLE_0 = 4` and `SWIZZLE_1 = 5` packed in a `Swizzle4` collapse to
`SWIZZLE_X = 0` and `SWIZZLE_Y = 1`. -/
def make4 (l si0 si12 si3 sw0123 : Nat) : PixelFormat :=
  make l si0 si12 si3 ((sw0123 >>> 0) &&& 3) ((sw0123 >>> 3) &&& 3)
    ((sw0123 >>> 6) &&& 3) ((sw0123 >>> 9) &&& 3)

/-- `PixelFormat::empty()`. -/
def empty (f : PixelFormat) : Bool := f.layout == 0

/-- `PixelFormat::valid()`. -/
def valid (f : PixelFormat) : Bool :=
  0 < f.layout && f.layout < NUM_COLOR_LAYOUTS &&
  f.sign0 ≤ SIGN_FLOAT && f.sign12 ≤ SIGN_FLOAT && f.sign3 ≤ SIGN_FLOAT &&
  f.swizzle0 ≤ SWIZZLE_1 && f.swizzle1 ≤ SWIZZLE_1 &&
  f.swizzle2 ≤ SWIZZLE_1 && f.swizzle3 ≤ SWIZZLE_1 &&
  f.reserved0 == 0

/-- `PixelFormat::layoutDesc()`: the layout-table entry for this format. -/
def layoutDesc (f : PixelFormat) : LayoutDesc :=
  LAYOUTS.getD f.layout ⟨0, 0, 0, 0, []⟩

/-- `PixelFormat::bitsPerPixel()`:
`blockBytes * 8 / blockWidth / blockHeight` with C++ integer division.
The result fits the `uint8_t` cast (it is at most 128), so the cast is
lossless. -/
def bitsPerPixel (f : PixelFormat) : Nat :=
  f.layoutDesc.blockBytes * 8 / f.layoutDesc.blockWidth / f.layoutDesc.blockHeight

/-- `PixelFormat::BC1_UNORM()`. -/
def BC1_UNORM : PixelFormat := make4 30 SIGN_UNORM SIGN_UNORM SIGN_UNORM SWIZZLE_XYZ1

/-- `PixelFormat::R_8_UNORM()`. -/
def R_8_UNORM : PixelFormat := make4 8 SIGN_UNORM SIGN_UNORM SIGN_UNORM SWIZZLE_X001

/-- `PixelFormat::RGBA_8_8_8_8_UNORM()` (a.k.a. `RGBA8`). -/
def RGBA8 : PixelFormat := make4 11 SIGN_UNORM SIGN_UNORM SIGN_UNORM SWIZZLE_XYZW

/-- `PixelFormat::GR_8_UINT_24_UNORM()`: built through the 8-argument
`make` overload, so its constant swizzles survive (`swizzle2 = SWIZZLE_0`,
`swizzle3 = SWIZZLE_1`). -/
def GR_8_UINT_24_UNORM : PixelFormat :=
  make 24 SIGN_UINT SIGN_UNORM SIGN_UINT SWIZZLE_Y SWIZZLE_X SWIZZLE_0 SWIZZLE_1

end PixelFormat

/-- The twelve ASTC layouts whose block pixel count does not divide the 128
block bits, so the truncating division in `bitsPerPixel` loses bits. -/
def nonExactBppLayouts : List Nat := [40, 41, 42, 43, 44, 45, 47, 48, 49, 50, 51, 52]

/-! ## OnePixel

The 128-bit scratch value: two `uint64` halves `lo`/`hi`.  `segment` and
`set` fail (`RII_THROW`) when the requested bit range straddles the two
halves; this is modelled with `Option`. -/

/-- The `OnePixel` union, restricted to its `lo`/`hi` view.  The invariant
`lo < 2 ^ 64 ∧ hi < 2 ^ 64` holds for every value the embedded operations
construct. -/
structure OnePixel where
  lo : Nat
  hi : Nat
deriving DecidableEq, Repr

/-- Little-endian recombination of a byte list (first byte is least
significant). -/
def bytesToNatLE (l : List Nat) : Nat := l.foldr (fun b acc => b + 256 * acc) 0

namespace OnePixel

/-- `OnePixel::make(data, size)`: zero-initialize, then copy `size` bytes
from the source buffer into the low bytes (little-endian machine). -/
def make (data : List Nat) (size : Nat) : OnePixel :=
  let bs := data.take size
  ⟨bytesToNatLE (bs.take 8), bytesToNatLE (bs.drop 8)⟩

/-- `OnePixel::segment(offset, count)`: extract a contiguous bit range as a
`uint32`.  `none` models the `RII_THROW` on a range crossing the two 64-bit
halves. -/
def segment (p : OnePixel) (offset count : Nat) : Option Nat :=
  let mask := if count < 64 then 2 ^ count - 1 else 2 ^ 64 - 1
  if offset + count ≤ 64 then some (((p.lo >>> offset) &&& mask) % 2 ^ 32)
  else if 64 ≤ offset then some (((p.hi >>> (offset - 64)) &&& mask) % 2 ^ 32)
  else none

/-- `OnePixel::set(value, offset, count)`: OR a masked value into a
contiguous bit range.  `none` models the `RII_THROW` on a straddling
range. -/
def set (p : OnePixel) (value offset count : Nat) : Option OnePixel :=
  let mask := if count < 64 then 2 ^ count - 1 else 2 ^ 64 - 1
  if offset + count ≤ 64 then some ⟨p.lo ||| ((value &&& mask) <<< offset), p.hi⟩
  else if 64 ≤ offset then some ⟨p.lo, p.hi ||| ((value &&& mask) <<< (offset - 64))⟩
  else none

end OnePixel

/-! ## Channel lookup, including the out-of-bounds indexing

`PixelFormat::loadFromFloat4` indexes `layoutDesc().channels[swizzle]` with
the raw swizzle value, which is 4 (`SWIZZLE_0`) or 5 (`SWIZZLE_1`) for
constant slots — past the end of the 4-entry `channels` array.  The
`LAYOUTS` table is one contiguous constant array of 11-byte `LayoutDesc`
structs (bytes: packed `blockWidth | blockHeight << 4`, `blockBytes`,
`numChannels`, then 4 × (`shift`, `bits`)), so such a read deterministically
lands in the leading bytes of the *next* table entry.  We model the table as
its flat byte image and channel lookup as a byte-pair read, which agrees
with the in-bounds `channels[j]` for `j < 4` (`channelAt_eq_channels`) and
gives the out-of-bounds reads their concrete little-endian values. -/

/-- The 11-byte in-memory image of one `LayoutDesc`. -/
def LayoutDesc.toBytes (d : LayoutDesc) : List Nat :=
  [d.blockWidth ||| (d.blockHeight <<< 4), d.blockBytes, d.numChannels] ++
    d.channels.flatMap (fun c => [c.shift, c.bits])

/-- The flat byte image of the whole `PixelFormat::LAYOUTS` array. -/
def layoutsFlatBytes : List Nat := LAYOUTS.flatMap LayoutDesc.toBytes

/-- `LAYOUTS[layout].channels[j]` as the C++ indexing performs it: a read of
two bytes at offset `11 * layout + 3 + 2 * j` of the flat table image. -/
def channelAt (layout j : Nat) : ChannelDesc :=
  ⟨layoutsFlatBytes.getD (11 * layout + 3 + 2 * j) 0,
    layoutsFlatBytes.getD (11 * layout + 3 + 2 * j + 1) 0⟩

/-- `getSign(format, channel)` (file-local helper in the source):
`sign0` for channel 0, `sign3` for channel 3, `sign12` otherwise. -/
def getSign (f : PixelFormat) (channel : Nat) : Nat :=
  if channel = 0 then f.sign0 else if channel = 3 then f.sign3 else f.sign12

/-- `getSwizzledChannel(format, channel)` (file-local helper):
`format.u32 << (20 + channel * 3) & 0x7`, with `uint32` wrap-around on the
left shift.  (Note the source shifts *left*.) -/
def getSwizzledChannel (u32 channel : Nat) : Nat :=
  ((u32 <<< (20 + channel * 3)) % 2 ^ 32) &&& 0x7

/-! ## loadFromFloat4

`fromFloat(value, bits, sign)` converts a `float` to channel bits; its
numeric behavior is irrelevant for the placement property verified here, so
it is abstracted as a parameter `enc : Nat → Nat → Nat → Option Nat` taking
the *source channel index* selected by the swizzle (the switch dispatches on
the swizzle to pick `pixel.x/.y/.z/.w`), the channel bit count and the sign;
`none` models the `RII_THROW` for unsupported sign/width combinations. -/

/-- The body of the `convertToChannel` lambda inside
`PixelFormat::loadFromFloat4`, for one swizzle slot. -/
def convertToChannel (f : PixelFormat) (enc : Nat → Nat → Nat → Option Nat)
    (sw : Nat) (acc : OnePixel) : Option OnePixel :=
  let ch := channelAt f.layout sw
  let sign := getSign f sw
  (if sw < 4 then enc sw ch.bits sign
   else if sw = 4 then some 0
   else if sw = 5 then some 1
   else none).bind fun value => acc.set value ch.shift ch.bits

/-- `PixelFormat::loadFromFloat4`: process the four swizzle slots in order,
ORing each encoded value into the result. -/
def loadFromFloat4 (f : PixelFormat) (enc : Nat → Nat → Nat → Option Nat) :
    Option OnePixel :=
  (((some ⟨0, 0⟩ : Option OnePixel).bind (convertToChannel f enc f.swizzle0)).bind
      (convertToChannel f enc f.swizzle1)).bind (convertToChannel f enc f.swizzle2)
    |>.bind (convertToChannel f enc f.swizzle3)

/-- The claim's reading of `loadFromFloat4`: slots whose swizzle names a
constant (`SWIZZLE_0`/`SWIZZLE_1`) are skipped outright; only `X/Y/Z/W`
slots encode and OR bits into the output. -/
def convertToChannelNC (f : PixelFormat) (enc : Nat → Nat → Nat → Option Nat)
    (sw : Nat) (acc : OnePixel) : Option OnePixel :=
  if sw < 4 then convertToChannel f enc sw acc else some acc

/-- `loadFromFloat4` with constant swizzle slots skipped. -/
def loadFromFloat4NC (f : PixelFormat) (enc : Nat → Nat → Nat → Option Nat) :
    Option OnePixel :=
  (((some ⟨0, 0⟩ : Option OnePixel).bind (convertToChannelNC f enc f.swizzle0)).bind
      (convertToChannelNC f enc f.swizzle1)).bind (convertToChannelNC f enc f.swizzle2)
    |>.bind (convertToChannelNC f enc f.swizzle3)

/-! ## getPixelChannelFloat

`PixelFormat::getPixelChannelFloat(pixel, channel)` returns a `float`; the
final `toFloat(value, bits, sign)` call is kept symbolic as the
`ChannelRead.decoded value bits sign` constructor, while the constant
swizzle cases return the symbolic constants `0.0` / `1.0`. -/

/-- Symbolic result of `getPixelChannelFloat`. -/
inductive ChannelRead where
  | const0 : ChannelRead
  | const1 : ChannelRead
  | decoded : Nat → Nat → Nat → ChannelRead
deriving DecidableEq, Repr

/-- `PixelFormat::getPixelChannelFloat`, with the float decode kept
symbolic. -/
def getPixelChannelFloatR (f : PixelFormat) (pixel : List Nat) (channel : Nat) :
    Option ChannelRead :=
  let swizzle := getSwizzledChannel f.u32 channel
  if swizzle == SWIZZLE_0 then some .const0
  else if swizzle == SWIZZLE_1 then some .const1
  else
    let channelDesc := channelAt f.layout swizzle
    let sign := getSign f swizzle
    let src := OnePixel.make pixel f.layoutDesc.blockBytes
    (src.segment channelDesc.shift channelDesc.bits).map fun v =>
      .decoded v channelDesc.bits sign

/-- Accessor for the static layout table, as the enum-indexed C++ read
`PixelFormat::LAYOUTS[layout]`. -/
def layoutAt (l : Nat) : LayoutDesc := LAYOUTS.getD l ⟨0, 0, 0, 0, []⟩

/-! ## PlaneDesc -/

/-- `Extent3D`. -/
structure Extent3D where
  w : Nat
  h : Nat
  d : Nat
deriving DecidableEq, Repr

/-- `Extent3D::empty()`. -/
def Extent3D.empty (e : Extent3D) : Bool := e.w == 0 || e.h == 0 || e.d == 0

/-- A single 1D/2D/3D image plane descriptor (`PlaneDesc`).  All integer
fields are `uint32` in the source; the embedding stores them as `Nat` and
applies `% 2 ^ 32` wherever the C++ arithmetic wraps. -/
structure PlaneDesc where
  format : PixelFormat
  extent : Extent3D
  step : Nat
  pitch : Nat
  slice : Nat
  size : Nat
  offset : Nat
  alignment : Nat
deriving DecidableEq, Repr

/-- The default-constructed `PlaneDesc` (member initializers): `UNKNOWN`
format, zero extent and spacing, `alignment = 4`. -/
def PlaneDesc.dfl : PlaneDesc := ⟨PixelFormat.fromU32 0, ⟨0, 0, 0⟩, 0, 0, 0, 0, 0, 4⟩

/-- `PlaneDesc::empty()`: the format compares equal to
`PixelFormat::UNKNOWN()` (a `u32` comparison). -/
def PlaneDesc.empty (p : PlaneDesc) : Bool := p.format.u32 == 0

/-- `nextMultiple(value, multiple)` (file-local helper): round `value` up to
the next multiple of `multiple` (`0` is treated as `1`), in `uint32`
arithmetic. -/
def nextMultiple (value multiple : Nat) : Nat :=
  let m := if multiple = 0 then 1 else multiple
  (value + (m - value % m) % m) % 2 ^ 32

/-- `numBlocksPerRow` as computed in `setSpacing`/`valid`:
`(extent.w + blockWidth - 1) / blockWidth` in `uint32` arithmetic. -/
def numBlocksPerRow (f : PixelFormat) (e : Extent3D) : Nat :=
  ((e.w + f.layoutDesc.blockWidth - 1) % 2 ^ 32) / f.layoutDesc.blockWidth

/-- `numBlocksPerCol`: `(extent.h + blockHeight - 1) / blockHeight`. -/
def numBlocksPerCol (f : PixelFormat) (e : Extent3D) : Nat :=
  ((e.h + f.layoutDesc.blockHeight - 1) % 2 ^ 32) / f.layoutDesc.blockHeight

/-- The alignment normalization in `setSpacing`:
`alignment_ ? (uint32_t) alignment_ : 4`. -/
def alignOf (alignment_ : Nat) : Nat := if alignment_ = 0 then 4 else alignment_ % 2 ^ 32

/-- The step computation in `setSpacing`:
`std::max((uint32_t) step_, (uint32_t) blockBytes)`. -/
def stepOf (f : PixelFormat) (step_ : Nat) : Nat :=
  max (step_ % 2 ^ 32) f.layoutDesc.blockBytes

/-- The pitch computation in `setSpacing`:
`nextMultiple(max(step * numBlocksPerRow, (uint32_t) pitch_), alignment)`. -/
def pitchOf (f : PixelFormat) (e : Extent3D) (step_ pitch_ alignment_ : Nat) : Nat :=
  nextMultiple (max ((stepOf f step_ * numBlocksPerRow f e) % 2 ^ 32) (pitch_ % 2 ^ 32))
    (alignOf alignment_)

/-- The slice computation in `setSpacing`:
`nextMultiple(max(pitch * numBlocksPerCol, (uint32_t) slice_), alignment)`. -/
def sliceOf (f : PixelFormat) (e : Extent3D) (step_ pitch_ slice_ alignment_ : Nat) : Nat :=
  nextMultiple
    (max ((pitchOf f e step_ pitch_ alignment_ * numBlocksPerCol f e) % 2 ^ 32)
      (slice_ % 2 ^ 32))
    (alignOf alignment_)

/-- `PlaneDesc::setSpacing(step, pitch, slice, alignment)`.  `none` models
the two `RII_REQUIRE` throws (invalid format / empty extent). -/
def PlaneDesc.setSpacing (p : PlaneDesc) (step_ pitch_ slice_ alignment_ : Nat) :
    Option PlaneDesc :=
  if p.format.valid = false then none
  else if p.extent.empty = true then none
  else some { p with
    alignment := alignOf alignment_
    step := stepOf p.format step_
    pitch := pitchOf p.format p.extent step_ pitch_ alignment_
    slice := sliceOf p.format p.extent step_ pitch_ slice_ alignment_
    size := (sliceOf p.format p.extent step_ pitch_ slice_ alignment_ * p.extent.d) % 2 ^ 32 }

/-- The extent normalization in `PlaneDesc::make`: zero components become
1. -/
def normExtent (e : Extent3D) : Extent3D :=
  ⟨if e.w = 0 then 1 else e.w, if e.h = 0 then 1 else e.h, if e.d = 0 then 1 else e.d⟩

/-- `PlaneDesc::make(format, extent, step, pitch, slice, alignment)`:
returns the default (empty) descriptor when the format is invalid,
otherwise normalizes the extent and computes the spacing.  The `none` case
(a `RII_REQUIRE` inside `setSpacing`) is unreachable from here because the
format was just validated and the normalized extent is non-empty. -/
def PlaneDesc.make (format : PixelFormat) (extent : Extent3D)
    (step_ pitch_ slice_ alignment_ : Nat) : Option PlaneDesc :=
  if format.valid = false then some PlaneDesc.dfl
  else
    ({ PlaneDesc.dfl with format := format, extent := normExtent extent } :
      PlaneDesc).setSpacing step_ pitch_ slice_ alignment_

/-- `PlaneDesc::valid()`.  The products and sums are `uint32`
computations. -/
def PlaneDesc.valid (p : PlaneDesc) : Bool :=
  p.format.valid &&
  !p.extent.empty &&
  (p.format.layoutDesc.blockBytes ≤ p.step) &&
  ((numBlocksPerRow p.format p.extent * p.format.layoutDesc.blockBytes) % 2 ^ 32 ≤ p.pitch) &&
  ((numBlocksPerCol p.format p.extent * numBlocksPerRow p.format p.extent % 2 ^ 32 *
      p.format.layoutDesc.blockBytes) % 2 ^ 32 ≤ p.slice) &&
  ((p.slice * p.extent.d) % 2 ^ 32 ≤ p.size) &&
  (p.alignment != 0) &&
  (p.offset % p.alignment == 0) &&
  (p.pitch % p.alignment == 0) &&
  (p.slice % p.alignment == 0)

/-! ## ImageDesc -/

/-- `ImageDesc::ConstructionOrder`. -/
inductive ConstructionOrder where
  | FACE_MAJOR : ConstructionOrder
  | MIP_MAJOR : ConstructionOrder
deriving DecidableEq, Repr

/-- `ImageDesc::DEFAULT_PLANE_ALIGNMENT`. -/
def DEFAULT_PLANE_ALIGNMENT : Nat := 16

/-- The plane table of an arrayed/cubed/mipmapped image (`ImageDesc`).
`arrayLength`, `faces`, `levels`, `alignment` are `uint32`; `size` is
`uint64`. -/
structure ImageDesc where
  planes : List PlaneDesc
  arrayLength : Nat
  faces : Nat
  levels : Nat
  alignment : Nat
  size : Nat
deriving DecidableEq, Repr

/-- The state after `ImageDesc::clear()`: no planes, zero counters,
`alignment = DEFAULT_PLANE_ALIGNMENT`. -/
def ImageDesc.cleared : ImageDesc := ⟨[], 0, 0, 0, DEFAULT_PLANE_ALIGNMENT, 0⟩

/-- `ImageDesc::empty()`. -/
def ImageDesc.emptyB (d : ImageDesc) : Bool := d.planes.isEmpty

/-- `ImageDesc::index(a, f, l) = a * faces * levels + f * levels + l`
(`size_t` arithmetic). -/
def ImageDesc.index (faces levels a f l : Nat) : Nat :=
  (a * faces * levels + f * levels + l) % 2 ^ 64

/-- `ImageDesc::valid()`. -/
def ImageDesc.valid (d : ImageDesc) : Bool :=
  if d.planes.length = 0 then
    d.levels == 0 && d.faces == 0 && d.arrayLength == 0 && d.size == 0
  else
    (d.alignment != 0) &&
    ((d.arrayLength * d.faces % 2 ^ 32 * d.levels) % 2 ^ 32 == d.planes.length) &&
    ((List.range d.arrayLength).all fun a =>
      (List.range d.faces).all fun f =>
        (List.range d.levels).all fun l =>
          let m := d.planes.getD (ImageDesc.index d.faces d.levels a f l) PlaneDesc.dfl
          m.valid && ((m.offset + m.size) % 2 ^ 32 ≤ d.size))

/-- The mip-extent halving step of `ImageDesc::reset` (each component
larger than 1 is halved). -/
def halveExtent (e : Extent3D) : Extent3D :=
  ⟨if 1 < e.w then e.w / 2 else e.w, if 1 < e.h then e.h / 2 else e.h,
    if 1 < e.d then e.d / 2 else e.d⟩

/-- The body of the `maxLevels` loop of `ImageDesc::reset`, with structural
fuel.  The fuel `w + h + d` of `maxLevelsLoop` always suffices because each
iteration halves at least one component that is above 1. -/
def maxLevelsGo : Nat → Nat → Nat → Nat → Nat
  | 0, _, _, _ => 1
  | fuel + 1, w, h, d =>
    if 1 < w ∨ 1 < h ∨ 1 < d then
      1 + maxLevelsGo fuel (if 1 < w then w / 2 else w) (if 1 < h then h / 2 else h)
        (if 1 < d then d / 2 else d)
    else 1

/-- The `maxLevels` computation of `ImageDesc::reset`: halve every extent
component above 1 until all equal 1, counting iterations + 1. -/
def maxLevelsLoop (w h d : Nat) : Nat := maxLevelsGo (w + h + d) w h d

/-- The next-level derivation of `ImageDesc::reset`: halve the extent, then
recompute the spacing with `PlaneDesc::make(format, extent, step, 0, 0)`
(plane alignment back at the default 4).  The `getD` discharges the
unreachable `none` of `make` (the format stays valid and the halved extent
stays non-empty). -/
def nextMip (mip : PlaneDesc) : PlaneDesc :=
  (PlaneDesc.make mip.format (halveExtent mip.extent) mip.step 0 0 4).getD PlaneDesc.dfl

/-- The FACE_MAJOR inner loop of `ImageDesc::reset` over the mip levels of
one `(array, face)` pair: stamp the running offset into the current mip
plane, store it at `index(a, f, m)`, advance the offset to
`nextMultiple(mip.offset + mip.size, alignment)`, then derive the next
level. -/
def faceMajorFace (faces levels alignment a f : Nat) (baseMap : PlaneDesc)
    (st : List PlaneDesc × Nat) : List PlaneDesc × Nat :=
  let r := (List.range levels).foldl
    (fun (acc : List PlaneDesc × Nat × PlaneDesc) m =>
      let mip := { acc.2.2 with offset := acc.2.1 }
      (acc.1.set (ImageDesc.index faces levels a f m) mip,
        nextMultiple ((mip.offset + mip.size) % 2 ^ 32) alignment, nextMip mip))
    (st.1, st.2, baseMap)
  (r.1, r.2.1)

/-- The FACE_MAJOR construction of the plane table: outer loop over array
elements, then faces; the mip chain restarts from `baseMap` for each
`(array, face)` pair. -/
def resetPlanesFM (arrayLength faces levels alignment : Nat) (baseMap : PlaneDesc)
    (init : List PlaneDesc) : List PlaneDesc × Nat :=
  (List.range arrayLength).foldl
    (fun st a =>
      (List.range faces).foldl
        (fun st2 f => faceMajorFace faces levels alignment a f baseMap st2) st)
    (init, 0)

/-- The MIP_MAJOR loop of `ImageDesc::reset` for one array element: the
outer loop walks the mip levels, the inner loop stamps all faces of the
current level, then the next level is derived.  The offset advance is
`nextMultiple(mip.size + mip.offset, alignment)`. -/
def mipMajorArray (faces levels alignment a : Nat) (baseMap : PlaneDesc)
    (st : List PlaneDesc × Nat) : List PlaneDesc × Nat :=
  let r := (List.range levels).foldl
    (fun (acc : List PlaneDesc × Nat × PlaneDesc) m =>
      let inner := (List.range faces).foldl
        (fun (st2 : List PlaneDesc × Nat) f =>
          let mip := { acc.2.2 with offset := st2.2 }
          (st2.1.set (ImageDesc.index faces levels a f m) mip,
            nextMultiple ((mip.size + mip.offset) % 2 ^ 32) alignment))
        (acc.1, acc.2.1)
      (inner.1, inner.2, nextMip acc.2.2))
    (st.1, st.2, baseMap)
  (r.1, r.2.1)

/-- The MIP_MAJOR construction of the plane table. -/
def resetPlanesMM (arrayLength faces levels alignment : Nat) (baseMap : PlaneDesc)
    (init : List PlaneDesc) : List PlaneDesc × Nat :=
  (List.range arrayLength).foldl
    (fun st a => mipMajorArray faces levels alignment a baseMap st) (init, 0)

/-- `ImageDesc::reset(baseMap, arrayLength, faces, levels, order,
alignment)`.  The descriptor is cleared first; failed validation returns
the cleared descriptor.  Zero counts normalize to 1; `levels = 0` (or a
request beyond the full chain) becomes the full mip chain length.  The
stored counters and alignment are `uint32` casts of the `size_t`
arguments; the plane array is sized with the `size_t` product. -/
def ImageDesc.reset (baseMap : PlaneDesc) (arrayLength_ faces_ levels_ : Nat)
    (order : ConstructionOrder) (alignment_ : Nat) : ImageDesc :=
  if baseMap.valid = false then ImageDesc.cleared
  else
    let alignment_ := if alignment_ = 0 then baseMap.alignment else alignment_
    if alignment_ % baseMap.alignment ≠ 0 then ImageDesc.cleared
    else
      let arrayLength_ := if arrayLength_ = 0 then 1 else arrayLength_
      let faces_ := if faces_ = 0 then 1 else faces_
      let maxLevels := maxLevelsLoop baseMap.extent.w baseMap.extent.h baseMap.extent.d
      let levels_ := if levels_ = 0 ∨ maxLevels < levels_ then maxLevels else levels_
      let arrayLength := arrayLength_ % 2 ^ 32
      let faces := faces_ % 2 ^ 32
      let levels := levels_ % 2 ^ 32
      let alignment := alignment_ % 2 ^ 32
      let init := List.replicate ((arrayLength_ * faces_ % 2 ^ 64 * levels_) % 2 ^ 64)
        PlaneDesc.dfl
      let r := match order with
        | .FACE_MAJOR => resetPlanesFM arrayLength faces levels alignment baseMap init
        | .MIP_MAJOR => resetPlanesMM arrayLength faces levels alignment baseMap init
      ⟨r.1, arrayLength, faces, levels, alignment, r.2⟩

/-- `ImageDesc::make`: construct a fresh descriptor and `reset` it. -/
def ImageDesc.make (baseMap : PlaneDesc) (arrayLength_ faces_ levels_ : Nat)
    (order : ConstructionOrder) (alignment_ : Nat) : ImageDesc :=
  ImageDesc.reset baseMap arrayLength_ faces_ levels_ order alignment_

/-- The descriptor-level behavior of `PlaneDesc::generateMipmaps(pixels,
maxLevels)`: the result image is built from
`ImageDesc{}.reset(PlaneDesc::make(format, extent), 1, maxLevels)` — note
the call site passes `maxLevels` as the *faces* argument of `reset` and
leaves `levels` at its default value 1. -/
def generateMipmapsDesc (p : PlaneDesc) (maxLevels : Nat) : ImageDesc :=
  ImageDesc.reset ((PlaneDesc.make p.format p.extent 0 0 0 4).getD PlaneDesc.dfl)
    1 maxLevels 1 .FACE_MAJOR DEFAULT_PLANE_ALIGNMENT


/-! ## RIL codec

The RIL container: 8-byte file tag (`"RIL_"` + `u32` version), a 36-byte
`RILHeaderV1` (with `#pragma pack(4)`: seven `u32` fields and one `u64`),
the raw plane array (each `PlaneDesc` is ten `u32` fields, 40 bytes), and
the pixel blob.  Streams are byte lists; every multi-byte field is
little-endian. -/

/-- Little-endian bytes of a `uint32` value. -/
def u32le (n : Nat) : List Nat :=
  [n % 256, n / 256 % 256, n / 65536 % 256, n / 16777216 % 256]

/-- Little-endian bytes of a `uint64` value. -/
def u64le (n : Nat) : List Nat :=
  [n % 256, n / 256 % 256, n / 65536 % 256, n / 16777216 % 256,
    n / 4294967296 % 256, n / 1099511627776 % 256, n / 281474976710656 % 256,
    n / 72057594037927936 % 256]

/-- `checkedRead` of `k` raw bytes: fails (like a short stream read) if
fewer are available. -/
def readBytes (k : Nat) (s : List Nat) : Option (List Nat × List Nat) :=
  if k ≤ s.length then some (s.take k, s.drop k) else none

/-- Read one little-endian `uint32`. -/
def readU32 (s : List Nat) : Option (Nat × List Nat) :=
  (readBytes 4 s).map fun r => (bytesToNatLE r.1, r.2)

/-- Read one little-endian `uint64`. -/
def readU64 (s : List Nat) : Option (Nat × List Nat) :=
  (readBytes 8 s).map fun r => (bytesToNatLE r.1, r.2)

/-- The in-memory bytes of one `PlaneDesc` (ten `uint32` fields in
declaration order — the layout the RIL codec writes and reads verbatim). -/
def PlaneDesc.toBytes (p : PlaneDesc) : List Nat :=
  u32le p.format.u32 ++ u32le p.extent.w ++ u32le p.extent.h ++ u32le p.extent.d ++
    u32le p.step ++ u32le p.pitch ++ u32le p.slice ++ u32le p.size ++
    u32le p.offset ++ u32le p.alignment

/-- Parse one `PlaneDesc` from its 40 raw bytes. -/
def readPlane (s : List Nat) : Option (PlaneDesc × List Nat) :=
  (readU32 s).bind fun (f, s) =>
    (readU32 s).bind fun (w, s) =>
      (readU32 s).bind fun (h, s) =>
        (readU32 s).bind fun (d, s) =>
          (readU32 s).bind fun (st, s) =>
            (readU32 s).bind fun (pi, s) =>
              (readU32 s).bind fun (sl, s) =>
                (readU32 s).bind fun (sz, s) =>
                  (readU32 s).bind fun (off, s) =>
                    (readU32 s).map fun (al, s) =>
                      (⟨PixelFormat.fromU32 f, ⟨w, h, d⟩, st, pi, sl, sz, off, al⟩, s)

/-- The raw bytes of a plane array. -/
def planesToBytes (ps : List PlaneDesc) : List Nat := ps.flatMap PlaneDesc.toBytes

/-- Parse `n` consecutive `PlaneDesc` records. -/
def readPlanes : Nat → List Nat → Option (List PlaneDesc × List Nat)
  | 0, s => some ([], s)
  | n + 1, s =>
    (readPlane s).bind fun (p, s1) =>
      (readPlanes n s1).map fun (ps, s2) => (p :: ps, s2)

/-- The four tag characters `'R' 'I' 'L' '_'`. -/
def RIL_TAG_BYTES : List Nat := [0x52, 0x49, 0x4C, 0x5F]

/-- `sizeof(RILHeaderV1)` (pack(4): seven `u32` + one `u64`). -/
def rilHeaderSize : Nat := 36

/-- `sizeof(PlaneDesc)` (ten `u32`). -/
def rilPlaneDescSize : Nat := 40

/-- `sizeof(RILFileTag) + sizeof(RILHeaderV1)`: the offset of the plane
array. -/
def rilFirstPlaneOffset : Nat := 44

/-- `saveToRIL(desc, stream, pixels)`: `none` models the `RII_THROW` on an
empty or invalid descriptor; otherwise the tag (version 1), the V1 header,
the raw plane array and `desc.size` pixel bytes are emitted. -/
def saveToRIL (d : ImageDesc) (pixels : List Nat) : Option (List Nat) :=
  if d.emptyB = true ∨ d.valid = false then none
  else some (RIL_TAG_BYTES ++ u32le 1 ++
    (u32le rilHeaderSize ++ u32le rilPlaneDescSize ++ u32le rilFirstPlaneOffset ++
      u32le d.arrayLength ++ u32le d.faces ++ u32le d.levels ++ u32le d.alignment ++
      u64le d.size) ++
    planesToBytes d.planes ++ pixels.take d.size)

/-- `ImageDesc::loadFromRIL`: parse the tag (must be `"RIL_"` with a
positive version), accept only version 1, parse and check the header
(`headerSize`/`planeDescSize`/`offset` must match the compiled-in sizes; an
empty header is rejected), read `arrayLength * faces * levels` planes
(`uint32` product, as the C++ computes it), validate the descriptor, then
read the `size`-byte pixel blob. -/
def loadFromRIL (s : List Nat) : Option (ImageDesc × List Nat) :=
  (readBytes 4 s).bind fun (tag, s) =>
    (readU32 s).bind fun (version, s) =>
      if ¬(tag = RIL_TAG_BYTES ∧ 0 < version) then none
      else if version ≠ 1 then none
      else
        (readU32 s).bind fun (h0, s) =>
          (readU32 s).bind fun (h1, s) =>
            (readU32 s).bind fun (h2, s) =>
              (readU32 s).bind fun (al, s) =>
                (readU32 s).bind fun (fc, s) =>
                  (readU32 s).bind fun (lv, s) =>
                    (readU32 s).bind fun (algn, s) =>
                      (readU64 s).bind fun (sz, s) =>
                        if ¬(h0 = rilHeaderSize ∧ h1 = rilPlaneDescSize ∧
                            h2 = rilFirstPlaneOffset) then none
                        else if sz = 0 ∨ al = 0 ∨ fc = 0 ∨ lv = 0 then none
                        else
                          (readPlanes ((al * fc % 2 ^ 32 * lv) % 2 ^ 32) s).bind
                            fun (ps, s) =>
                              if (⟨ps, al, fc, lv, algn, sz⟩ : ImageDesc).valid = false then
                                none
                              else
                                (readBytes sz s).map fun (pix, _) =>
                                  ((⟨ps, al, fc, lv, algn, sz⟩ : ImageDesc), pix)

/-- `PlaneDesc::operator==`: compares format (by `u32`), extent and the
spacing fields — but *not* `alignment`. -/
def PlaneDesc.eqC (a b : PlaneDesc) : Bool :=
  a.format.u32 == b.format.u32 && a.extent == b.extent && a.step == b.step &&
    a.pitch == b.pitch && a.slice == b.slice && a.size == b.size && a.offset == b.offset

/-- `ImageDesc::operator==`: element-wise plane comparison plus the
counters, total size and alignment. -/
def ImageDesc.eqC (x y : ImageDesc) : Bool :=
  (x.planes.length == y.planes.length &&
    (x.planes.zip y.planes).all fun ab => ab.1.eqC ab.2) &&
  x.arrayLength == y.arrayLength && x.faces == y.faces && x.levels == y.levels &&
    x.size == y.size && x.alignment == y.alignment

/-- The `uint32` typing invariant of the C++ `PixelFormat` bit fields. -/
def PixelFormat.wf (f : PixelFormat) : Prop :=
  f.layout < 2 ^ 7 ∧ f.reserved0 < 2 ∧ f.sign0 < 2 ^ 4 ∧ f.sign12 < 2 ^ 4 ∧
    f.sign3 < 2 ^ 4 ∧ f.swizzle0 < 2 ^ 3 ∧ f.swizzle1 < 2 ^ 3 ∧ f.swizzle2 < 2 ^ 3 ∧
    f.swizzle3 < 2 ^ 3

/-- The `uint32` typing invariant of the C++ `PlaneDesc` fields. -/
def PlaneDesc.wf (p : PlaneDesc) : Prop :=
  p.format.wf ∧ p.extent.w < 2 ^ 32 ∧ p.extent.h < 2 ^ 32 ∧ p.extent.d < 2 ^ 32 ∧
    p.step < 2 ^ 32 ∧ p.pitch < 2 ^ 32 ∧ p.slice < 2 ^ 32 ∧ p.size < 2 ^ 32 ∧
    p.offset < 2 ^ 32 ∧ p.alignment < 2 ^ 32

/-- The typing invariant of the C++ `ImageDesc` fields (`uint32` counters
and alignment, `uint64` size). -/
def ImageDesc.wf (d : ImageDesc) : Prop :=
  d.arrayLength < 2 ^ 32 ∧ d.faces < 2 ^ 32 ∧ d.levels < 2 ^ 32 ∧
    d.alignment < 2 ^ 32 ∧ d.size < 2 ^ 64 ∧ ∀ p ∈ d.planes, p.wf

instance (f : PixelFormat) : Decidable f.wf := by
  unfold PixelFormat.wf; exact inferInstance

instance (p : PlaneDesc) : Decidable p.wf := by
  unfold PlaneDesc.wf; exact inferInstance

instance (d : ImageDesc) : Decidable d.wf := by
  unfold ImageDesc.wf; exact inferInstance

/-- A hand-built descriptor whose single plane passes `PlaneDesc::valid()`
with `size = 0`: the `uint32` product `slice * extent.d = 2 ^ 16 * 2 ^ 16`
wraps to 0, so the under-size check `size < slice * extent.d` is vacuous.
The whole descriptor passes `ImageDesc::valid()` with total `size = 0` and
is not empty. -/
def zeroSizeDesc : ImageDesc :=
  ⟨[⟨PixelFormat.R_8_UNORM, ⟨1, 1, 2 ^ 16⟩, 1, 4, 2 ^ 16, 0, 0, 4⟩], 1, 1, 1, 4, 0⟩

/-- A concrete 2x2 RGBA8 single-plane image (16 bytes of pixels), used to
exercise the RIL round-trip on a positive-size descriptor. -/
def rilDemoDesc : ImageDesc :=
  ImageDesc.make ((PlaneDesc.make PixelFormat.RGBA8 ⟨2, 2, 1⟩ 0 0 0 4).getD PlaneDesc.dfl)
    1 1 1 .FACE_MAJOR 4

/-- A 16-byte pixel buffer matching `rilDemoDesc.size`. -/
def rilDemoPixels : List Nat := List.range 16

/-! ## DDS reader: face count

The face-count determination of `ImageDesc::loadFromDDS` (the
`uint32 layers` if/else chain), over the header fields it inspects. -/

def DDS_DDSD_WIDTH : Nat := 0x00000004
def DDS_DDSD_HEIGHT : Nat := 0x00000002
def DDS_DDSD_DEPTH : Nat := 0x00800000
def DDS_CAPS_COMPLEX : Nat := 0x00000008
def DDS_CAPS2_CUBEMAP : Nat := 0x00000200
def DDS_CAPS2_CUBEMAP_ALLFACES : Nat := 0x0000fc00
def DDS_CAPS2_VOLUME : Nat := 0x00200000

/-- The face (`layers`) count computed by `ImageDesc::loadFromDDS` from
`header.flags`, `header.caps` and `header.caps2`; `none` is the
"Fail to detect image face count!" error return. -/
def ddsFaceCount (flags caps caps2 : Nat) : Option Nat :=
  if DDS_DDSD_DEPTH &&& flags ≠ 0 ∧ DDS_CAPS_COMPLEX &&& caps ≠ 0 ∧
      DDS_CAPS2_VOLUME &&& caps2 ≠ 0 then
    some 1
  else if DDS_CAPS_COMPLEX &&& caps ≠ 0 ∧ DDS_CAPS2_CUBEMAP &&& caps2 ≠ 0 ∧
      DDS_CAPS2_CUBEMAP_ALLFACES = caps2 &&& DDS_CAPS2_CUBEMAP_ALLFACES then
    some 6
  else if DDS_CAPS2_CUBEMAP &&& caps2 = 0 ∧ DDS_CAPS2_VOLUME &&& caps2 = 0 then
    some 1
  else none

/-- The amended face-count rule, stated over individual header bits
(`DDSD_DEPTH` is bit 23 of `flags`, `DDSCAPS_COMPLEX` bit 3 of `caps`,
`DDSCAPS2_CUBEMAP` bit 9, the six `ALLFACES` bits 10–15 and
`DDSCAPS2_VOLUME` bit 21 of `caps2`): volume textures are detected first,
then cubemaps — which need `COMPLEX`, the `CUBEMAP` bit *and* all six face
bits — then plain 2D textures (neither `CUBEMAP` nor `VOLUME` bit); any
other combination is an error. -/
def ddsFaceCountSpec (flags caps caps2 : Nat) : Option Nat :=
  if flags.testBit 23 ∧ caps.testBit 3 ∧ caps2.testBit 21 then some 1
  else if caps.testBit 3 ∧ caps2.testBit 9 ∧ caps2.testBit 10 ∧ caps2.testBit 11 ∧
      caps2.testBit 12 ∧ caps2.testBit 13 ∧ caps2.testBit 14 ∧ caps2.testBit 15 then
    some 6
  else if ¬caps2.testBit 9 ∧ ¬caps2.testBit 21 then some 1
  else none

/-! ## General lemmas -/

/-- The flat-byte channel lookup agrees with the structured table for
in-bounds channel indices. -/
theorem channelAt_eq_channels :
    ∀ l, l < 53 → ∀ j, j < 4 → channelAt l j = (layoutAt l).channels.getD j ⟨0, 0⟩ := by
  set_option maxRecDepth 100000 in decide

/-- For every valid non-compressed layout, the two out-of-bounds channel
reads used by constant swizzle slots are harmless: the `SWIZZLE_0` read
yields a non-straddling bit range, and the `SWIZZLE_1` read yields a
channel with `bits = 0` (the following table entry always has
`channels[0].shift = 0`). -/
theorem channelAt_const_slots :
    ∀ l, l < 53 → 0 < l → (layoutAt l).blockWidth = 1 → (layoutAt l).blockHeight = 1 →
      (channelAt l 4).shift + (channelAt l 4).bits ≤ 64 ∧ (channelAt l 5).bits = 0 ∧
        (channelAt l 5).shift + (channelAt l 5).bits ≤ 64 := by
  set_option maxRecDepth 100000 in decide

/-- Unpack `PixelFormat::valid()`. -/
theorem PixelFormat.valid_bounds (f : PixelFormat) (h : f.valid = true) :
    0 < f.layout ∧ f.layout < 53 ∧ f.swizzle0 ≤ 5 ∧ f.swizzle1 ≤ 5 ∧
      f.swizzle2 ≤ 5 ∧ f.swizzle3 ≤ 5 := by
  simp only [PixelFormat.valid, NUM_COLOR_LAYOUTS, SIGN_FLOAT, SWIZZLE_1,
    Bool.and_eq_true, decide_eq_true_eq] at h
  obtain ⟨⟨⟨⟨⟨⟨⟨⟨⟨hl0, hl1⟩, -⟩, -⟩, -⟩, hw0⟩, hw1⟩, hw2⟩, hw3⟩, -⟩ := h
  exact ⟨hl0, hl1, hw0, hw1, hw2, hw3⟩

/-- Setting a value whose masked bits are all zero leaves the accumulator
unchanged (when the range does not straddle the halves). -/
theorem OnePixel.set_zero_of_masked_zero (p : OnePixel) (v o c : Nat)
    (hz : v &&& (if c < 64 then 2 ^ c - 1 else 2 ^ 64 - 1) = 0)
    (hr : o + c ≤ 64 ∨ 64 ≤ o) : p.set v o c = some p := by
  unfold OnePixel.set
  rcases le_or_lt (o + c) 64 with h | h
  · rw [if_pos h, hz, Nat.zero_shiftLeft, Nat.or_zero]
  · rw [if_neg (by omega), if_pos (by omega), hz, Nat.zero_shiftLeft, Nat.or_zero]

/-- A constant swizzle slot (`SWIZZLE_0` or `SWIZZLE_1`) of
`loadFromFloat4` leaves the accumulator unchanged, for every valid
non-compressed format. -/
theorem convertToChannel_const (f : PixelFormat) (enc : Nat → Nat → Nat → Option Nat)
    (sw : Nat) (acc : OnePixel) (hv : f.valid = true)
    (hbw : f.layoutDesc.blockWidth = 1) (hbh : f.layoutDesc.blockHeight = 1)
    (hsw : sw = 4 ∨ sw = 5) : convertToChannel f enc sw acc = some acc := by
  obtain ⟨hl0, hl1, -⟩ := f.valid_bounds hv
  obtain ⟨h4, h5b, h5r⟩ := channelAt_const_slots f.layout hl1 hl0 hbw hbh
  unfold convertToChannel
  rcases hsw with rfl | rfl
  · simp only [show ¬(4 < 4) by omega, if_false, if_pos rfl, Option.some_bind]
    exact acc.set_zero_of_masked_zero 0 _ _ (Nat.zero_and _) (Or.inl h4)
  · simp only [show ¬(5 < 4) by omega, if_false, show (5 : Nat) ≠ 4 by omega, if_pos rfl,
      Option.some_bind]
    refine acc.set_zero_of_masked_zero 1 _ _ ?_ (Or.inl h5r)
    rw [h5b]
    decide

/-! ## C6: constant swizzle slots contribute no bits in loadFromFloat4 -/

/-- Every slot step of `loadFromFloat4` agrees with the skip-constants
version. -/
theorem convertToChannel_eq_NC (f : PixelFormat) (enc : Nat → Nat → Nat → Option Nat)
    (sw : Nat) (hv : f.valid = true) (hbw : f.layoutDesc.blockWidth = 1)
    (hbh : f.layoutDesc.blockHeight = 1) (hsw : sw ≤ 5) (acc : OnePixel) :
    convertToChannel f enc sw acc = convertToChannelNC f enc sw acc := by
  unfold convertToChannelNC
  rcases Nat.lt_or_ge sw 4 with h | h
  · rw [if_pos h]
  · rw [if_neg (by omega), convertToChannel_const f enc sw acc hv hbw hbh (by omega)]

/-- C6: In `loadFromFloat4`, for every valid non-compressed format and every
input float4 (abstracted by the channel encoder `enc`), a swizzle slot
holding one of the constants 0 or 1 contributes no bits to the packed
output pixel; only slots naming an `X/Y/Z/W` source channel encode a value
and OR it into the output at that channel's `(shift, bits)` range. -/
theorem loadFromFloat4_const_swizzles_contribute_nothing (f : PixelFormat)
    (enc : Nat → Nat → Nat → Option Nat) (hv : f.valid = true)
    (hbw : f.layoutDesc.blockWidth = 1) (hbh : f.layoutDesc.blockHeight = 1) :
    loadFromFloat4 f enc = loadFromFloat4NC f enc := by
  obtain ⟨-, -, h0, h1, h2, h3⟩ := f.valid_bounds hv
  unfold loadFromFloat4 loadFromFloat4NC
  rw [funext (convertToChannel_eq_NC f enc f.swizzle0 hv hbw hbh h0),
    funext (convertToChannel_eq_NC f enc f.swizzle1 hv hbw hbh h1),
    funext (convertToChannel_eq_NC f enc f.swizzle2 hv hbw hbh h2),
    funext (convertToChannel_eq_NC f enc f.swizzle3 hv hbw hbh h3)]

/-- C6 witness: the theorem applied to `R_8_UNORM` (layout `LAYOUT_8`,
blockWidth = blockHeight = 1) and a concrete encoder. -/
theorem loadFromFloat4_const_swizzles_witness :
    loadFromFloat4 PixelFormat.R_8_UNORM (fun src bits sign => some (src + bits + sign)) =
      loadFromFloat4NC PixelFormat.R_8_UNORM (fun src bits sign => some (src + bits + sign)) :=
  loadFromFloat4_const_swizzles_contribute_nothing PixelFormat.R_8_UNORM _
    (by decide) (by decide) (by decide)

/-! ## C7: getPixelChannelFloat and the broken swizzle extraction

`getSwizzledChannel` computes `format.u32 << (20 + channel * 3) & 0x7`:
a *left* shift by at least 20 bits, whose low three bits are always zero.
So it returns `SWIZZLE_X` for every format and every channel index, and
`getPixelChannelFloat` never takes its constant-swizzle paths. -/

/-- `getSwizzledChannel` returns 0 (`SWIZZLE_X`) for every format encoding
and every channel. -/
theorem getSwizzledChannel_eq_zero (u c : Nat) : getSwizzledChannel u c = 0 := by
  unfold getSwizzledChannel
  have h7 : (0x7 : Nat) = 2 ^ 3 - 1 := by norm_num
  rw [h7, Nat.and_pow_two_sub_one_eq_mod,
    Nat.mod_mod_of_dvd _ (by norm_num : (2 ^ 3 : Nat) ∣ 2 ^ 32), Nat.shiftLeft_eq]
  have hsplit : (2 : Nat) ^ (20 + c * 3) = 2 ^ (17 + c * 3) * 2 ^ 3 := by
    rw [show 20 + c * 3 = 17 + c * 3 + 3 by omega, pow_add]
  rw [hsplit, ← Nat.mul_assoc]
  exact Nat.mul_mod_left _ (2 ^ 3)

/-- C7: `getPixelChannelFloat` does not return the constant 0.0 for a
constant-0 swizzled slot.  `GR_8_UINT_24_UNORM` has `swizzle2 = SWIZZLE_0`,
so by the claim channel 2 must decode to the constant 0.0; the code instead
always extracts swizzle `SWIZZLE_X` (a consequence of the left shift in
`getSwizzledChannel`) and decodes source channel X — on pixel bytes
`[5,0,0,0]` it decodes the 8-bit value 5 with sign `UINT` (value 5.0). -/
theorem getPixelChannelFloat_const_slot_bug :
    PixelFormat.GR_8_UINT_24_UNORM.swizzle2 = SWIZZLE_0 ∧
      getSwizzledChannel PixelFormat.GR_8_UINT_24_UNORM.u32 2 = SWIZZLE_X ∧
        getPixelChannelFloatR PixelFormat.GR_8_UINT_24_UNORM [5, 0, 0, 0] 2 =
          some (.decoded 5 8 SIGN_UINT) := by
  refine ⟨by decide, by decide, by decide⟩

/-! ## C10: OnePixel segment/set round trip -/

/-- C10: starting from a zero-initialized `OnePixel`, a non-straddling
`set` followed by `segment` on the same range returns the value masked to
its low `c` bits; a straddling range makes both operations fail. -/
theorem onePixel_set_segment_roundtrip (v o c : Nat) (_hv : v < 2 ^ 32)
    (hc : c ≤ 32) (hoc : o + c ≤ 128) :
    (o + c ≤ 64 ∨ 64 ≤ o →
      ∃ p, OnePixel.set ⟨0, 0⟩ v o c = some p ∧ p.segment o c = some (v % 2 ^ c)) ∧
      (o < 64 → 64 < o + c →
        OnePixel.set ⟨0, 0⟩ v o c = none ∧ OnePixel.segment ⟨0, 0⟩ o c = none) := by
  have hmask : (if c < 64 then 2 ^ c - 1 else 2 ^ 64 - 1) = 2 ^ c - 1 :=
    if_pos (by omega)
  have hlt : v % 2 ^ c < 2 ^ 32 :=
    lt_of_lt_of_le (Nat.mod_lt v (Nat.pos_pow_of_pos c (by omega)))
      (Nat.pow_le_pow_right (by omega) hc)
  constructor
  · intro hns
    rcases le_or_lt (o + c) 64 with h | h
    · refine ⟨⟨(v &&& (2 ^ c - 1)) <<< o, 0⟩, ?_, ?_⟩
      · unfold OnePixel.set
        rw [hmask, if_pos h, Nat.zero_or]
      · unfold OnePixel.segment
        rw [hmask, if_pos h, Nat.shiftLeft_eq, Nat.shiftRight_eq_div_pow,
          Nat.mul_div_cancel _ (Nat.pos_pow_of_pos o (by omega)),
          Nat.and_pow_two_sub_one_eq_mod, Nat.and_pow_two_sub_one_eq_mod,
          Nat.mod_mod_of_dvd _ dvd_rfl, Nat.mod_eq_of_lt hlt]
    · have ho : 64 ≤ o := by omega
      refine ⟨⟨0, (v &&& (2 ^ c - 1)) <<< (o - 64)⟩, ?_, ?_⟩
      · unfold OnePixel.set
        rw [hmask, if_neg (by omega), if_pos ho, Nat.zero_or]
      · unfold OnePixel.segment
        rw [hmask, if_neg (by omega), if_pos ho, Nat.shiftLeft_eq,
          Nat.shiftRight_eq_div_pow,
          Nat.mul_div_cancel _ (Nat.pos_pow_of_pos (o - 64) (by omega)),
          Nat.and_pow_two_sub_one_eq_mod, Nat.and_pow_two_sub_one_eq_mod,
          Nat.mod_mod_of_dvd _ dvd_rfl, Nat.mod_eq_of_lt hlt]
  · intro h1 h2
    constructor
    · unfold OnePixel.set
      rw [hmask, if_neg (by omega), if_neg (by omega)]
    · unfold OnePixel.segment
      rw [hmask, if_neg (by omega), if_neg (by omega)]

/-- C10 witness: `set` then `segment` of value 0xABC at offset 50, width 12
(non-straddling) recovers the value; shown by applying the round-trip
theorem at that concrete input. -/
theorem onePixel_set_segment_witness :
    ∃ p, OnePixel.set ⟨0, 0⟩ 0xABC 50 12 = some p ∧ p.segment 50 12 = some 0xABC := by
  have h := (onePixel_set_segment_roundtrip 0xABC 50 12 (by decide) (by decide)
    (by decide)).1 (Or.inl (by decide))
  simpa using h

/-! ## C3: the blockBytes/bitsPerPixel identity -/

/-- C3 counterexample: for `LAYOUT_ASTC_5x4` (enum value 40) the table has
`blockBytes = 16` (128 block bits) but `bitsPerPixel` truncates
`128 / 5 / 4` to 6, so `blockWidth × blockHeight × bitsPerPixel = 120 ≠
128 = blockBytes × 8`. -/
theorem bitsPerPixel_identity_counterexample :
    (layoutAt 40).blockBytes * 8 = 128 ∧
      (PixelFormat.make 40 0 0 0 0 0 0 0).bitsPerPixel = 6 ∧
        ¬((layoutAt 40).blockBytes * 8 =
          (layoutAt 40).blockWidth * (layoutAt 40).blockHeight *
            (PixelFormat.make 40 0 0 0 0 0 0 0).bitsPerPixel) := by
  refine ⟨by decide, by decide, by decide⟩

/-- C3 (amended): the identity `blockBytes × 8 = blockWidth × blockHeight ×
bitsPerPixel` holds for every layout other than `LAYOUT_UNKNOWN` except the
twelve ASTC layouts whose block pixel count does not divide the 128 block
bits. -/
theorem bitsPerPixel_identity (l : Nat) (h1 : 0 < l) (h2 : l < NUM_COLOR_LAYOUTS)
    (h3 : l ∉ nonExactBppLayouts) :
    (layoutAt l).blockBytes * 8 =
      (layoutAt l).blockWidth * (layoutAt l).blockHeight *
        (PixelFormat.make l 0 0 0 0 0 0 0).bitsPerPixel := by
  revert h1 h3
  revert l h2
  show ∀ l, l < NUM_COLOR_LAYOUTS → 0 < l → l ∉ nonExactBppLayouts → _
  set_option maxRecDepth 400000 in decide

/-- C3 witness: the identity at `LAYOUT_8_8_8_8` (enum value 11). -/
theorem bitsPerPixel_identity_witness :
    (layoutAt 11).blockBytes * 8 =
      (layoutAt 11).blockWidth * (layoutAt 11).blockHeight *
        (PixelFormat.make 11 0 0 0 0 0 0 0).bitsPerPixel :=
  bitsPerPixel_identity 11 (by decide) (by decide) (by decide)

/-! ## nextMultiple and normExtent lemmas -/

/-- `nextMultiple` without overflow: the result is at least the input, is a
multiple of `m`, and stays below `2 ^ 32`. -/
theorem nextMultiple_spec (v m : Nat) (hm : 0 < m) (hb : v + m ≤ 2 ^ 32) :
    v ≤ nextMultiple v m ∧ nextMultiple v m % m = 0 ∧ nextMultiple v m < 2 ^ 32 := by
  unfold nextMultiple
  simp only [Nat.pos_iff_ne_zero.mp hm, if_false]
  have hpad : (m - v % m) % m < m := Nat.mod_lt _ hm
  have hlt : v + (m - v % m) % m < 2 ^ 32 := by omega
  rw [Nat.mod_eq_of_lt hlt]
  refine ⟨by omega, ?_, hlt⟩
  rcases Nat.eq_zero_or_pos (v % m) with h0 | hpos
  · simp [Nat.sub_zero, Nat.mod_self, h0]
  · have hv : v % m < m := Nat.mod_lt _ hm
    have hsmall : (m - v % m) % m = m - v % m := Nat.mod_eq_of_lt (by omega)
    rw [hsmall]
    have hq : v + (m - v % m) = (v / m + 1) * m := by
      have hdm := Nat.div_add_mod v m
      calc v + (m - v % m) = m * (v / m) + v % m + (m - v % m) := by rw [hdm]
        _ = m * (v / m) + m := by omega
        _ = (v / m + 1) * m := by ring
    rw [hq, Nat.mul_mod_left]

/-- The normalized extent is never empty. -/
theorem normExtent_empty_false (e : Extent3D) : (normExtent e).empty = false := by
  simp only [normExtent, Extent3D.empty, Bool.or_eq_false_iff, beq_eq_false_iff_ne]
  refine ⟨⟨?_, ?_⟩, ?_⟩ <;> split_ifs <;> omega

/-- The normalized alignment is positive when the raw argument fits
`uint32`. -/
theorem alignOf_pos (alignment_ : Nat) (ha : alignment_ < 2 ^ 32) :
    0 < alignOf alignment_ := by
  unfold alignOf
  split_ifs with h
  · omega
  · rw [Nat.mod_eq_of_lt ha]; omega

/-- A valid format has a non-zero 32-bit encoding. -/
theorem PixelFormat.u32_ne_zero (f : PixelFormat) (hf : f.valid = true) : f.u32 ≠ 0 := by
  obtain ⟨hl0, -⟩ := f.valid_bounds hf
  unfold PixelFormat.u32
  omega

/-! ## C8: PlaneDesc::make and non-power-of-two alignment -/

/-- C8 counterexample: `PlaneDesc::make` with alignment 3 — not a power of
two — does *not* fail construction: it returns a non-empty descriptor
(step 1, pitch 6, slice 24, size 24) that moreover passes `valid()`.
There is no power-of-two check anywhere in `make`/`setSpacing`. -/
theorem planeDesc_make_accepts_alignment_3 :
    PlaneDesc.make PixelFormat.R_8_UNORM ⟨4, 4, 1⟩ 0 0 0 3 =
      some ⟨PixelFormat.R_8_UNORM, ⟨4, 4, 1⟩, 1, 6, 24, 24, 0, 3⟩ ∧
      (⟨PixelFormat.R_8_UNORM, ⟨4, 4, 1⟩, 1, 6, 24, 24, 0, 3⟩ : PlaneDesc).empty = false ∧
      (⟨PixelFormat.R_8_UNORM, ⟨4, 4, 1⟩, 1, 6, 24, 24, 0, 3⟩ : PlaneDesc).valid = true := by
  refine ⟨by decide, by decide, by decide⟩

/-- C8 (amended): `PlaneDesc::make` performs no power-of-two check on the
alignment.  For every valid format and every argument tuple whose spacing
computation stays within `uint32` (no wrap-around), it returns a non-empty
descriptor that passes `valid()` — whatever the alignment value. -/
theorem planeDesc_make_valid (format : PixelFormat) (extent : Extent3D)
    (step_ pitch_ slice_ alignment_ : Nat)
    (hf : format.valid = true)
    (ha : alignment_ < 2 ^ 32)
    (hst : step_ < 2 ^ 32) (hpt : pitch_ < 2 ^ 32) (hsl : slice_ < 2 ^ 32)
    (hp1 : stepOf format step_ * numBlocksPerRow format (normExtent extent) < 2 ^ 32)
    (hp2 : max (stepOf format step_ * numBlocksPerRow format (normExtent extent)) pitch_ +
      alignOf alignment_ ≤ 2 ^ 32)
    (hs1 : pitchOf format (normExtent extent) step_ pitch_ alignment_ *
      numBlocksPerCol format (normExtent extent) < 2 ^ 32)
    (hs2 : max (pitchOf format (normExtent extent) step_ pitch_ alignment_ *
      numBlocksPerCol format (normExtent extent)) slice_ + alignOf alignment_ ≤ 2 ^ 32) :
    ∃ p, PlaneDesc.make format extent step_ pitch_ slice_ alignment_ = some p ∧
      p.valid = true ∧ p.empty = false := by
  have hap : 0 < alignOf alignment_ := alignOf_pos alignment_ ha
  have hne := normExtent_empty_false extent
  refine ⟨⟨format, normExtent extent, stepOf format step_,
    pitchOf format (normExtent extent) step_ pitch_ alignment_,
    sliceOf format (normExtent extent) step_ pitch_ slice_ alignment_,
    (sliceOf format (normExtent extent) step_ pitch_ slice_ alignment_ *
      (normExtent extent).d) % 2 ^ 32, 0, alignOf alignment_⟩, ?_, ?_, ?_⟩
  · simp only [PlaneDesc.make, PlaneDesc.setSpacing, hf, hne, Bool.true_eq_false,
      Bool.false_eq_true, if_false]
    rfl
  · -- the resulting descriptor passes valid()
    have hstep : format.layoutDesc.blockBytes ≤ stepOf format step_ := Nat.le_max_right _ _
    have hstep32 : step_ % 2 ^ 32 = step_ := Nat.mod_eq_of_lt hst
    have hpt32 : pitch_ % 2 ^ 32 = pitch_ := Nat.mod_eq_of_lt hpt
    have hsl32 : slice_ % 2 ^ 32 = slice_ := Nat.mod_eq_of_lt hsl
    have hsn32 : stepOf format step_ * numBlocksPerRow format (normExtent extent) % 2 ^ 32 =
        stepOf format step_ * numBlocksPerRow format (normExtent extent) :=
      Nat.mod_eq_of_lt hp1
    -- pitch
    have hpspec := nextMultiple_spec
      (max ((stepOf format step_ * numBlocksPerRow format (normExtent extent)) % 2 ^ 32)
        (pitch_ % 2 ^ 32)) (alignOf alignment_) hap
      (by rw [hsn32, hpt32]; exact hp2)
    have hpitch_def : pitchOf format (normExtent extent) step_ pitch_ alignment_ =
        nextMultiple
          (max ((stepOf format step_ * numBlocksPerRow format (normExtent extent)) % 2 ^ 32)
            (pitch_ % 2 ^ 32)) (alignOf alignment_) := rfl
    have hpitch_ge : stepOf format step_ * numBlocksPerRow format (normExtent extent) ≤
        pitchOf format (normExtent extent) step_ pitch_ alignment_ := by
      rw [hpitch_def]
      exact le_trans (by rw [hsn32]; exact Nat.le_max_left _ _) hpspec.1
    -- slice
    have hpn32 : pitchOf format (normExtent extent) step_ pitch_ alignment_ *
        numBlocksPerCol format (normExtent extent) % 2 ^ 32 =
        pitchOf format (normExtent extent) step_ pitch_ alignment_ *
          numBlocksPerCol format (normExtent extent) := Nat.mod_eq_of_lt hs1
    have hsspec := nextMultiple_spec
      (max ((pitchOf format (normExtent extent) step_ pitch_ alignment_ *
          numBlocksPerCol format (normExtent extent)) % 2 ^ 32) (slice_ % 2 ^ 32))
      (alignOf alignment_) hap (by rw [hpn32, hsl32]; exact hs2)
    have hslice_def : sliceOf format (normExtent extent) step_ pitch_ slice_ alignment_ =
        nextMultiple
          (max ((pitchOf format (normExtent extent) step_ pitch_ alignment_ *
            numBlocksPerCol format (normExtent extent)) % 2 ^ 32) (slice_ % 2 ^ 32))
          (alignOf alignment_) := rfl
    have hslice_ge : pitchOf format (normExtent extent) step_ pitch_ alignment_ *
        numBlocksPerCol format (normExtent extent) ≤
        sliceOf format (normExtent extent) step_ pitch_ slice_ alignment_ := by
      rw [hslice_def]
      exact le_trans (by rw [hpn32]; exact Nat.le_max_left _ _) hsspec.1
    simp only [PlaneDesc.valid, Bool.and_eq_true, Bool.not_eq_true', bne_iff_ne,
      beq_iff_eq, decide_eq_true_eq]
    refine ⟨⟨⟨⟨⟨⟨⟨⟨⟨hf, hne⟩, hstep⟩, ?_⟩, ?_⟩, ?_⟩, ?_⟩, ?_⟩, ?_⟩, ?_⟩
    · -- pitch bound
      calc numBlocksPerRow format (normExtent extent) * format.layoutDesc.blockBytes % 2 ^ 32
          ≤ numBlocksPerRow format (normExtent extent) * format.layoutDesc.blockBytes :=
            Nat.mod_le _ _
        _ ≤ numBlocksPerRow format (normExtent extent) * stepOf format step_ :=
            Nat.mul_le_mul_left _ hstep
        _ = stepOf format step_ * numBlocksPerRow format (normExtent extent) :=
            Nat.mul_comm _ _
        _ ≤ _ := hpitch_ge
    · -- slice bound
      calc numBlocksPerCol format (normExtent extent) *
            numBlocksPerRow format (normExtent extent) % 2 ^ 32 *
            format.layoutDesc.blockBytes % 2 ^ 32
          ≤ numBlocksPerCol format (normExtent extent) *
              numBlocksPerRow format (normExtent extent) % 2 ^ 32 *
              format.layoutDesc.blockBytes := Nat.mod_le _ _
        _ ≤ numBlocksPerCol format (normExtent extent) *
              numBlocksPerRow format (normExtent extent) *
              format.layoutDesc.blockBytes :=
            Nat.mul_le_mul_right _ (Nat.mod_le _ _)
        _ = numBlocksPerRow format (normExtent extent) * format.layoutDesc.blockBytes *
              numBlocksPerCol format (normExtent extent) := by ring
        _ ≤ stepOf format step_ * numBlocksPerRow format (normExtent extent) *
              numBlocksPerCol format (normExtent extent) := by
            refine Nat.mul_le_mul_right _ ?_
            calc numBlocksPerRow format (normExtent extent) * format.layoutDesc.blockBytes
                ≤ numBlocksPerRow format (normExtent extent) * stepOf format step_ :=
                  Nat.mul_le_mul_left _ hstep
              _ = stepOf format step_ * numBlocksPerRow format (normExtent extent) :=
                  Nat.mul_comm _ _
        _ ≤ pitchOf format (normExtent extent) step_ pitch_ alignment_ *
              numBlocksPerCol format (normExtent extent) :=
            Nat.mul_le_mul_right _ hpitch_ge
        _ ≤ _ := hslice_ge
    · exact Nat.le_refl _
    · omega
    · exact Nat.zero_mod _
    · exact hpspec.2.1
    · exact hsspec.2.1
  · simp only [PlaneDesc.empty, beq_eq_false_iff_ne]
    exact format.u32_ne_zero hf

/-- C8 witness: the amended theorem at `R_8_UNORM`, extent `(7, 5, 3)`,
alignment 6 (not a power of two). -/
theorem planeDesc_make_valid_witness :
    ∃ p, PlaneDesc.make PixelFormat.R_8_UNORM ⟨7, 5, 3⟩ 0 0 0 6 = some p ∧
      p.valid = true ∧ p.empty = false :=
  planeDesc_make_valid PixelFormat.R_8_UNORM ⟨7, 5, 3⟩ 0 0 0 6 (by decide) (by decide)
    (by decide) (by decide) (by decide) (by decide) (by decide) (by decide) (by decide)

/-! ## C1: the DXT1 cubemap layout -/

set_option maxRecDepth 4000000 in
/-- C1: the descriptor built by `ImageDesc::make` from the
`BC1_UNORM` 256×256 base plane with `arrayLength = 1`, `faces = 6`,
`levels = 9`, FACE_MAJOR order and alignment 4 has total size 262224, and
its plane table (in face-major index order) carries, for each face `f`, the
nine mip sizes `[32768, 8192, 2048, 512, 128, 32, 8, 8, 8]` laid out
contiguously in the 43704-byte block starting at offset `43704 * f`. -/
theorem dxt1_cubemap_face_major_layout :
    ∃ base, PlaneDesc.make PixelFormat.BC1_UNORM ⟨256, 256, 1⟩ 0 0 0 4 = some base ∧
      (ImageDesc.make base 1 6 9 .FACE_MAJOR 4).size = 262224 ∧
      ((ImageDesc.make base 1 6 9 .FACE_MAJOR 4).planes.map fun p => (p.offset, p.size)) =
        (List.range 6).flatMap fun f =>
          [(43704 * f, 32768), (43704 * f + 32768, 8192), (43704 * f + 40960, 2048),
            (43704 * f + 43008, 512), (43704 * f + 43520, 128), (43704 * f + 43648, 32),
            (43704 * f + 43680, 8), (43704 * f + 43688, 8), (43704 * f + 43696, 8)] := by
  refine ⟨⟨PixelFormat.BC1_UNORM, ⟨256, 256, 1⟩, 8, 512, 32768, 32768, 0, 4⟩,
    by decide, by decide, by decide⟩

/-! ## C4: generateMipmaps builds a single-level image -/

set_option maxRecDepth 1000000 in
/-- C4: `PlaneDesc::generateMipmaps(pixels, 0)` on a 2×1×1 `R_8_UNORM`
plane.  The full mip chain of that plane has 2 levels
(`maxLevelsLoop 2 1 1 = 2`), but the image the code allocates has
`levels = 1` and a single plane, because the call site passes `maxLevels`
as the `faces` argument of `ImageDesc::reset` and leaves `levels` at its
default value 1 — so no mipmap below the base is ever generated. -/
theorem generateMipmaps_builds_single_level :
    ∃ base, PlaneDesc.make PixelFormat.R_8_UNORM ⟨2, 1, 1⟩ 0 0 0 4 = some base ∧
      maxLevelsLoop base.extent.w base.extent.h base.extent.d = 2 ∧
      (generateMipmapsDesc base 0).levels = 1 ∧
      (generateMipmapsDesc base 0).faces = 1 ∧
      (generateMipmapsDesc base 0).planes.length = 1 := by
  refine ⟨⟨PixelFormat.R_8_UNORM, ⟨2, 1, 1⟩, 1, 4, 4, 4, 0, 4⟩,
    by decide, by decide, by decide, by decide, by decide⟩

/-! ## C9: DDS face count -/

/-- A single-bit mask test is a `testBit`. -/
theorem two_pow_and_ne_zero_iff (k x : Nat) : 2 ^ k &&& x ≠ 0 ↔ x.testBit k = true := by
  rw [Nat.two_pow_and]
  cases h : x.testBit k
  · simp
  · simp [Nat.pos_iff_ne_zero.mp (Nat.pos_pow_of_pos k Nat.zero_lt_two)]

/-- A single-bit mask is clear exactly when the bit is clear. -/
theorem two_pow_and_eq_zero_iff (k x : Nat) : 2 ^ k &&& x = 0 ↔ x.testBit k = false := by
  rw [Nat.two_pow_and]
  cases h : x.testBit k
  · simp
  · simp [Nat.pos_iff_ne_zero.mp (Nat.pos_pow_of_pos k Nat.zero_lt_two)]

/-- All six `DDSCAPS2_CUBEMAP_ALLFACES` bits are set exactly when bits
10–15 of `caps2` are set. -/
theorem allfaces_iff (x : Nat) :
    DDS_CAPS2_CUBEMAP_ALLFACES = x &&& DDS_CAPS2_CUBEMAP_ALLFACES ↔
      (x.testBit 10 = true ∧ x.testBit 11 = true ∧ x.testBit 12 = true ∧
        x.testBit 13 = true ∧ x.testBit 14 = true ∧ x.testBit 15 = true) := by
  unfold DDS_CAPS2_CUBEMAP_ALLFACES
  constructor
  · intro h
    have key : ∀ b, (0xfc00 : Nat).testBit b = true → x.testBit b = true := by
      intro b hb
      have h2 : (x &&& 0xfc00).testBit b = (0xfc00 : Nat).testBit b := by rw [← h]
      rw [Nat.testBit_and, hb, Bool.and_true] at h2
      exact h2
    exact ⟨key 10 (by decide), key 11 (by decide), key 12 (by decide),
      key 13 (by decide), key 14 (by decide), key 15 (by decide)⟩
  · rintro ⟨h10, h11, h12, h13, h14, h15⟩
    refine Nat.eq_of_testBit_eq fun i => ?_
    rw [Nat.testBit_and]
    cases hmb : (0xfc00 : Nat).testBit i
    · rw [Bool.and_false]
    · rw [Bool.and_true]
      have hi : i < 16 := by
        by_contra hge
        have h16 : (0xfc00 : Nat) < 2 ^ 16 := by norm_num
        have hbig : (0xfc00 : Nat) < 2 ^ i :=
          lt_of_lt_of_le h16 (Nat.pow_le_pow_right (by norm_num) (by omega))
        rw [Nat.testBit_lt_two_pow hbig] at hmb
        cases hmb
      interval_cases i <;>
        first
          | exact absurd hmb (by decide)
          | exact h10.symm
          | exact h11.symm
          | exact h12.symm
          | exact h13.symm
          | exact h14.symm
          | exact h15.symm

/-- C9 counterexample: a header with `caps2 = 0xfc00` has every
`DDSCAPS2_CUBEMAP_ALLFACES` bit set, yet — because `caps` lacks
`DDSCAPS_COMPLEX` and `caps2` lacks the `DDSCAPS2_CUBEMAP` bit — the
reader takes the plain-2D branch and the face count is 1, not 6. -/
theorem ddsFaceCount_allfaces_not_six :
    DDS_CAPS2_CUBEMAP_ALLFACES = 0xfc00 &&& DDS_CAPS2_CUBEMAP_ALLFACES ∧
      ddsFaceCount (DDS_DDSD_WIDTH ||| DDS_DDSD_HEIGHT) 0 0xfc00 = some 1 := by
  refine ⟨by decide, by decide⟩

/-- C9 (amended): the face count computed when reading a DDS header is 6
when `caps` has `DDSCAPS_COMPLEX`, `caps2` has the `DDSCAPS2_CUBEMAP` bit
and all six `ALLFACES` bits, and the volume test (checked first) does not
match; it is 1 for volume textures (`DDSD_DEPTH`, `DDSCAPS_COMPLEX`,
`DDSCAPS2_VOLUME`) and for plain 2D textures (neither the `CUBEMAP` nor
the `VOLUME` bit in `caps2`); every other combination is an error. -/
theorem ddsFaceCount_characterization (flags caps caps2 : Nat) :
    ddsFaceCount flags caps caps2 = ddsFaceCountSpec flags caps caps2 := by
  unfold ddsFaceCount ddsFaceCountSpec
  unfold DDS_DDSD_DEPTH DDS_CAPS_COMPLEX DDS_CAPS2_CUBEMAP DDS_CAPS2_VOLUME
  have h23 : (0x00800000 : Nat) = 2 ^ 23 := by norm_num
  have h3 : (0x00000008 : Nat) = 2 ^ 3 := by norm_num
  have h21 : (0x00200000 : Nat) = 2 ^ 21 := by norm_num
  have h9 : (0x00000200 : Nat) = 2 ^ 9 := by norm_num
  rw [h23, h3, h21, h9]
  have e1 : (2 ^ 23 &&& flags ≠ 0 ∧ 2 ^ 3 &&& caps ≠ 0 ∧ 2 ^ 21 &&& caps2 ≠ 0) ↔
      (flags.testBit 23 = true ∧ caps.testBit 3 = true ∧ caps2.testBit 21 = true) :=
    and_congr (two_pow_and_ne_zero_iff 23 flags)
      (and_congr (two_pow_and_ne_zero_iff 3 caps) (two_pow_and_ne_zero_iff 21 caps2))
  have e2 : (2 ^ 3 &&& caps ≠ 0 ∧ 2 ^ 9 &&& caps2 ≠ 0 ∧
      DDS_CAPS2_CUBEMAP_ALLFACES = caps2 &&& DDS_CAPS2_CUBEMAP_ALLFACES) ↔
      (caps.testBit 3 = true ∧ caps2.testBit 9 = true ∧ caps2.testBit 10 = true ∧
        caps2.testBit 11 = true ∧ caps2.testBit 12 = true ∧ caps2.testBit 13 = true ∧
        caps2.testBit 14 = true ∧ caps2.testBit 15 = true) :=
    and_congr (two_pow_and_ne_zero_iff 3 caps)
      (and_congr (two_pow_and_ne_zero_iff 9 caps2) (allfaces_iff caps2))
  have e3 : (2 ^ 9 &&& caps2 = 0 ∧ 2 ^ 21 &&& caps2 = 0) ↔
      (¬caps2.testBit 9 = true ∧ ¬caps2.testBit 21 = true) :=
    and_congr ((two_pow_and_eq_zero_iff 9 caps2).trans (iff_of_eq (Bool.not_eq_true _)).symm)
      ((two_pow_and_eq_zero_iff 21 caps2).trans (iff_of_eq (Bool.not_eq_true _)).symm)
  exact if_congr e1 rfl (if_congr e2 rfl (if_congr e3 rfl rfl))

/-! ## C5: RIL save/load round trip -/

/-- Reading exactly the leading chunk of a stream. -/
theorem readBytes_exact (k : Nat) (l rest : List Nat) (h : l.length = k) :
    readBytes k (l ++ rest) = some (l, rest) := by
  subst h
  unfold readBytes
  rw [if_pos (by simp), List.take_left, List.drop_left]

/-- Reading a whole stream. -/
theorem readBytes_all (k : Nat) (l : List Nat) (h : l.length = k) :
    readBytes k l = some (l, []) := by
  subst h
  unfold readBytes
  rw [if_pos le_rfl, List.take_length, List.drop_length]

/-- `uint32` serialization round trip. -/
theorem readU32_u32le (n : Nat) (hn : n < 2 ^ 32) (rest : List Nat) :
    readU32 (u32le n ++ rest) = some (n, rest) := by
  unfold readU32
  rw [readBytes_exact 4 (u32le n) rest (by rfl)]
  simp only [Option.map_some']
  refine congrArg some (Prod.ext ?_ rfl)
  show bytesToNatLE (u32le n) = n
  unfold bytesToNatLE u32le
  simp only [List.foldr_cons, List.foldr_nil]
  omega

/-- `uint64` serialization round trip. -/
theorem readU64_u64le (n : Nat) (hn : n < 2 ^ 64) (rest : List Nat) :
    readU64 (u64le n ++ rest) = some (n, rest) := by
  unfold readU64
  rw [readBytes_exact 8 (u64le n) rest (by rfl)]
  simp only [Option.map_some']
  refine congrArg some (Prod.ext ?_ rfl)
  show bytesToNatLE (u64le n) = n
  unfold bytesToNatLE u64le
  simp only [List.foldr_cons, List.foldr_nil]
  omega

/-- Under the bit-field typing invariant the 32-bit encoding is below
`2 ^ 32`. -/
theorem PixelFormat.u32_lt (f : PixelFormat) (h : f.wf) : f.u32 < 2 ^ 32 := by
  obtain ⟨h1, h2, h3, h4, h5, h6, h7, h8, h9⟩ := h
  unfold PixelFormat.u32
  omega

/-- Reading back the 32-bit encoding recovers the bit fields. -/
theorem PixelFormat.fromU32_u32 (f : PixelFormat) (h : f.wf) :
    PixelFormat.fromU32 f.u32 = f := by
  obtain ⟨l, r, s0, s12, s3, w0, w1, w2, w3⟩ := f
  obtain ⟨h1, h2, h3, h4, h5, h6, h7, h8, h9⟩ := h
  simp only [PixelFormat.wf] at h1 h2 h3 h4 h5 h6 h7 h8 h9
  unfold PixelFormat.fromU32 PixelFormat.u32
  dsimp only at h1 h2 h3 h4 h5 h6 h7 h8 h9 ⊢
  simp only [PixelFormat.mk.injEq]
  refine ⟨?_, ?_, ?_, ?_, ?_, ?_, ?_, ?_, ?_⟩ <;> omega

/-- `PlaneDesc` serialization round trip. -/
theorem readPlane_toBytes (p : PlaneDesc) (h : p.wf) (rest : List Nat) :
    readPlane (p.toBytes ++ rest) = some (p, rest) := by
  obtain ⟨fmt, ⟨w, hh, dd⟩, st, pi, sl, sz, off, al⟩ := p
  obtain ⟨hfwf, h1, h2, h3, h4, h5, h6, h7, h8, h9⟩ := h
  unfold readPlane PlaneDesc.toBytes
  simp only [List.append_assoc]
  rw [readU32_u32le _ (PixelFormat.u32_lt fmt hfwf)]
  simp only [Option.some_bind]
  rw [readU32_u32le _ h1]
  simp only [Option.some_bind]
  rw [readU32_u32le _ h2]
  simp only [Option.some_bind]
  rw [readU32_u32le _ h3]
  simp only [Option.some_bind]
  rw [readU32_u32le _ h4]
  simp only [Option.some_bind]
  rw [readU32_u32le _ h5]
  simp only [Option.some_bind]
  rw [readU32_u32le _ h6]
  simp only [Option.some_bind]
  rw [readU32_u32le _ h7]
  simp only [Option.some_bind]
  rw [readU32_u32le _ h8]
  simp only [Option.some_bind]
  rw [readU32_u32le _ h9]
  simp only [Option.map_some']
  rw [PixelFormat.fromU32_u32 fmt hfwf]

/-- Plane-array serialization round trip. -/
theorem readPlanes_toBytes (ps : List PlaneDesc) (h : ∀ p ∈ ps, p.wf) (rest : List Nat) :
    readPlanes ps.length (planesToBytes ps ++ rest) = some (ps, rest) := by
  induction ps generalizing rest with
  | nil => simp [readPlanes, planesToBytes]
  | cons p ps ih =>
    show readPlanes (ps.length + 1) _ = _
    unfold readPlanes
    have hsplit : planesToBytes (p :: ps) ++ rest =
        p.toBytes ++ (planesToBytes ps ++ rest) := by
      simp [planesToBytes, List.flatMap_cons, List.append_assoc]
    rw [hsplit, readPlane_toBytes p (h p (List.mem_cons_self p ps)) _]
    simp only [Option.some_bind]
    rw [ih (fun q hq => h q (List.mem_cons_of_mem p hq)) rest]
    simp

/-- Unpack the non-empty case of `ImageDesc::valid()`: the alignment is
non-zero and the `uint32` counter product equals the plane-table length. -/
theorem ImageDesc.valid_shape (d : ImageDesc) (hv : d.valid = true) (hne : d.planes ≠ []) :
    d.alignment ≠ 0 ∧ (d.arrayLength * d.faces % 2 ^ 32 * d.levels) % 2 ^ 32 =
      d.planes.length := by
  unfold ImageDesc.valid at hv
  rw [if_neg (by simpa using hne)] at hv
  simp only [Bool.and_eq_true, bne_iff_ne, beq_iff_eq] at hv
  exact ⟨hv.1.1, hv.1.2⟩

/-- A valid non-empty descriptor has positive counters. -/
theorem ImageDesc.counters_pos (d : ImageDesc) (hv : d.valid = true)
    (hne : d.planes ≠ []) :
    0 < d.arrayLength ∧ 0 < d.faces ∧ 0 < d.levels := by
  have h2 := (d.valid_shape hv hne).2
  have hlen : d.planes.length ≠ 0 := by simpa using hne
  refine ⟨?_, ?_, ?_⟩
  · rcases Nat.eq_zero_or_pos d.arrayLength with h | h
    · rw [h, Nat.zero_mul, Nat.zero_mod, Nat.zero_mul, Nat.zero_mod] at h2
      exact absurd h2.symm hlen
    · exact h
  · rcases Nat.eq_zero_or_pos d.faces with h | h
    · rw [h, Nat.mul_zero, Nat.zero_mod, Nat.zero_mul, Nat.zero_mod] at h2
      exact absurd h2.symm hlen
    · exact h
  · rcases Nat.eq_zero_or_pos d.levels with h | h
    · rw [h, Nat.mul_zero, Nat.zero_mod] at h2
      exact absurd h2.symm hlen
    · exact h

/-- `PlaneDesc::operator==` is reflexive. -/
theorem PlaneDesc.eqC_self_plane (p : PlaneDesc) : p.eqC p = true := by
  simp [PlaneDesc.eqC]

/-- Element-wise self comparison of a plane list. -/
theorem zip_self_eqC (l : List PlaneDesc) :
    ((l.zip l).all fun ab => ab.1.eqC ab.2) = true := by
  induction l with
  | nil => rfl
  | cons p l ih => simpa [List.zip_cons_cons, PlaneDesc.eqC_self_plane] using ih

/-- `ImageDesc::operator==` is reflexive. -/
theorem ImageDesc.eqC_self (d : ImageDesc) : d.eqC d = true := by
  simp [ImageDesc.eqC, zip_self_eqC]

/-- C5 counterexample: `zeroSizeDesc` is a non-empty descriptor that
passes `ImageDesc::valid()` but has total `size = 0` (its plane's
`uint32` product `slice * depth` wraps to 0).  Saving it (with the
zero-length pixel buffer matching `size = 0`) succeeds, but loading the
produced stream back fails: `loadFromRIL` rejects the header as empty
because `size == 0`. -/
theorem ril_roundtrip_zero_size_fails :
    zeroSizeDesc.emptyB = false ∧ zeroSizeDesc.valid = true ∧
      (saveToRIL zeroSizeDesc []).isSome = true ∧
      loadFromRIL ((saveToRIL zeroSizeDesc []).getD []) = none := by
  refine ⟨by decide, by decide, by decide, by decide⟩

set_option maxHeartbeats 4000000 in
/-- C5 (amended): for every non-empty valid `ImageDesc` of *positive* total
size (and satisfying the `uint32`/`uint64` typing invariants of the C++
fields) together with a pixel buffer of `size` bytes, saving to a RIL
stream and loading it back yields a descriptor equal to the original under
`ImageDesc::operator==` and a byte-identical pixel blob. -/
theorem ril_save_load_roundtrip (d : ImageDesc) (pixels : List Nat)
    (hwf : d.wf) (hv : d.valid = true) (hne : d.planes ≠ []) (hsz : 0 < d.size)
    (hlen : pixels.length = d.size) :
    ∃ s, saveToRIL d pixels = some s ∧ ∃ r, loadFromRIL s = some r ∧
      ImageDesc.eqC r.1 d = true ∧ r.2 = pixels := by
  obtain ⟨hal, hfc, hlv, halgn, hszlt, hpwf⟩ := hwf
  have hempty : d.emptyB = false := by
    unfold ImageDesc.emptyB
    simpa using hne
  have hfacts := d.valid_shape hv hne
  have hcnt := d.counters_pos hv hne
  have htake : pixels.take d.size = pixels := by
    rw [← hlen, List.take_length]
  have hsave : saveToRIL d pixels = some (RIL_TAG_BYTES ++ u32le 1 ++
      (u32le rilHeaderSize ++ u32le rilPlaneDescSize ++ u32le rilFirstPlaneOffset ++
        u32le d.arrayLength ++ u32le d.faces ++ u32le d.levels ++ u32le d.alignment ++
        u64le d.size) ++
      planesToBytes d.planes ++ pixels.take d.size) := by
    unfold saveToRIL
    rw [if_neg (by simp [hempty, hv])]
  refine ⟨_, hsave, ⟨d, pixels⟩, ?_, d.eqC_self, rfl⟩
  · unfold loadFromRIL
    simp only [List.append_assoc]
    rw [readBytes_exact 4 RIL_TAG_BYTES _ rfl]
    simp only [Option.some_bind]
    rw [readU32_u32le 1 (by norm_num) _]
    simp only [Option.some_bind]
    rw [if_neg (by simp [RIL_TAG_BYTES])]
    rw [if_neg (by simp)]
    rw [readU32_u32le rilHeaderSize (by decide) _]
    simp only [Option.some_bind]
    rw [readU32_u32le rilPlaneDescSize (by decide) _]
    simp only [Option.some_bind]
    rw [readU32_u32le rilFirstPlaneOffset (by decide) _]
    simp only [Option.some_bind]
    rw [readU32_u32le d.arrayLength hal _]
    simp only [Option.some_bind]
    rw [readU32_u32le d.faces hfc _]
    simp only [Option.some_bind]
    rw [readU32_u32le d.levels hlv _]
    simp only [Option.some_bind]
    rw [readU32_u32le d.alignment halgn _]
    simp only [Option.some_bind]
    rw [readU64_u64le d.size hszlt _]
    simp only [Option.some_bind]
    rw [if_neg (by simp [rilHeaderSize, rilPlaneDescSize, rilFirstPlaneOffset])]
    rw [if_neg (by simp only [not_or]; omega)]
    rw [hfacts.2, readPlanes_toBytes d.planes hpwf _]
    simp only [Option.some_bind]
    rw [show (⟨d.planes, d.arrayLength, d.faces, d.levels, d.alignment, d.size⟩ :
      ImageDesc) = d from rfl]
    rw [if_neg (by simp [hv])]
    rw [htake, readBytes_all d.size pixels hlen]
    simp only [Option.map_some']

set_option maxRecDepth 100000 in
/-- Witness for the RIL round-trip theorem at the concrete descriptor
`rilDemoDesc` (a 2x2 RGBA8 image) with pixels `rilDemoPixels`. -/
theorem ril_save_load_roundtrip_witness :
    ∃ s, saveToRIL rilDemoDesc rilDemoPixels = some s ∧ ∃ r, loadFromRIL s = some r ∧
      ImageDesc.eqC r.1 rilDemoDesc = true ∧ r.2 = rilDemoPixels :=
  ril_save_load_roundtrip rilDemoDesc rilDemoPixels (by decide) (by decide)
    (by decide) (by decide) (by decide)

end RapidImage

